import Mathlib

/-!
# Verification of the zellij KDL layout parser

A shallow embedding of `src/zellij-utils/src/kdl/kdl_layout_parser.rs`
(the KDL layout resolution engine) together with theorems settling the
frozen claims about it.

Embedding conventions:
* The KDL node tree (an external collaborator produced by the `kdl` crate's
  tokenizer) is modelled as a plain inductive tree of named nodes with
  ordered entries (properties / positional arguments), optional ordered
  children and a source span.
* Rust `Result<T, ConfigError>` becomes `Except ConfigError T`; the
  fail-fast `?` propagation becomes `Except` bind.
* `PathBuf` becomes a `Path` of an absoluteness flag plus components;
  `PathBuf::join` keeps the right operand when it is absolute.
* Machine integers: KDL integer values are `Int`; the source's `as usize`
  casts are modelled as reduction modulo 2^64 (`usizeOfInt`).
* The registries (`HashMap`) are modelled as insertion-ordered association
  lists with replace-on-insert; iteration order of the Rust `HashMap` is
  unspecified, the association-list order is one admissible order, and no
  theorem below depends on within-round iteration order.
* Recursive descent over the node tree is fuelled: every recursive parse
  function consumes one unit of fuel per call and returns the distinguished
  `fuelError` when it runs out.  Theorems either hypothesise a successful
  run or use a concrete fuel large enough for the concrete input.
* Helpers of this repository that live outside the staged sources
  (the `kdl_get_*` macros of `kdl/mod.rs`, and the layout methods of
  `input/layout.rs` such as `insert_children_layout`, `Run::merge`,
  `add_cwd_to_layout`) are modelled from the spec; each such definition's
  doc comment starts with `Modelled from the spec:`.
-/

namespace ZellijKdl

/-! ## Generic Except helpers -/

@[simp] theorem except_bind_ok {α β ε : Type} (a : α) (f : α → Except ε β) :
    (Except.ok a >>= f) = f a := rfl

@[simp] theorem except_bind_err {α β ε : Type} (e : ε) (f : α → Except ε β) :
    ((Except.error e : Except ε α) >>= f) = Except.error e := rfl

@[simp] theorem except_map_ok {α β ε : Type} (a : α) (f : α → β) :
    ((Except.ok a : Except ε α).map f) = Except.ok (f a) := rfl

@[simp] theorem except_map_err {α β ε : Type} (e : ε) (f : α → β) :
    ((Except.error e : Except ε α).map f) = Except.error e := rfl

@[simp] theorem except_pure_eq {α ε : Type} (a : α) :
    (pure a : Except ε α) = Except.ok a := rfl

/-! ## Paths

Model of `std::path::PathBuf` as used by the parser: an absoluteness flag
plus a list of components.  `join` mirrors `PathBuf::join`: joining an
absolute path replaces the receiver. -/

structure Path where
  abs : Bool
  comps : List String
deriving Repr, DecidableEq

def Path.join (a b : Path) : Path :=
  if b.abs then b else ⟨a.abs, a.comps ++ b.comps⟩

/-- Split a character list on '/' separators. -/
def splitSlashAux (acc : List Char) : List Char → List String
  | [] => [String.mk acc]
  | '/' :: rest => String.mk acc :: splitSlashAux [] rest
  | c :: rest => splitSlashAux (acc ++ [c]) rest

def Path.fromString (s : String) : Path :=
  ⟨(match s.data with | '/' :: _ => true | _ => false),
    (splitSlashAux [] s.data).filter (fun c => c ≠ "")⟩

/-! ## Positioned errors

Model of `ConfigError::new_layout_kdl_error(message, offset, len)`.  The
embedding positions entry-level errors at their carrying node's span (the
claims quantify over "a positioned error", not over exact spans). -/

structure ConfigError where
  msg : String
  offset : Nat
  len : Nat
deriving Repr, DecidableEq

/-- The fuel-exhaustion marker of the embedding (not a source error). -/
def fuelError : ConfigError := ⟨"embedding: recursion fuel exhausted", 0, 0⟩

/-! ## The KDL node tree (external collaborator) -/

inductive KdlValue where
  | str (s : String)
  | int (n : Int)
  | bool (b : Bool)
  | null
deriving Repr, DecidableEq

def KdlValue.asString : KdlValue → Option String
  | .str s => some s
  | _ => none

def KdlValue.asInt : KdlValue → Option Int
  | .int n => some n
  | _ => none

def KdlValue.asBool : KdlValue → Option Bool
  | .bool b => some b
  | _ => none

/-- One entry of a KDL node: a named property (`key=value`) or a positional
argument (`name = none`). -/
structure KdlEntry where
  name : Option String
  value : KdlValue
deriving Repr, DecidableEq

inductive KdlNode where
  | mk (name : String) (entries : List KdlEntry)
      (children : Option (List KdlNode)) (offset : Nat) (len : Nat)
deriving Repr

def KdlNode.name : KdlNode → String
  | .mk n _ _ _ _ => n

def KdlNode.entries : KdlNode → List KdlEntry
  | .mk _ es _ _ _ => es

def KdlNode.childrenNodes : KdlNode → Option (List KdlNode)
  | .mk _ _ c _ _ => c

def KdlNode.offset : KdlNode → Nat
  | .mk _ _ _ o _ => o

def KdlNode.len : KdlNode → Nat
  | .mk _ _ _ _ l => l

/-- A KDL document: the top-level nodes plus the document span. -/
structure KdlDocument where
  nodes : List KdlNode
  offset : Nat
  len : Nat

/-- `kdl_parsing_error!(msg, node)`. -/
def kdlParsingError (msg : String) (node : KdlNode) : ConfigError :=
  ⟨msg, node.offset, node.len⟩

/-- `ConfigError::new_layout_kdl_error`. -/
def layoutKdlError (msg : String) (offset len : Nat) : ConfigError :=
  ⟨msg, offset, len⟩

/-! ## Property-or-child value lookup

Modelled from the spec: "a value may be supplied either as a property on
the node's header or as a same-named bare/valued child" — the lookup
macros of `kdl/mod.rs` (not among the staged sources). -/

/-- Modelled from the spec: the value of the named header property, if any. -/
def KdlNode.propValue (n : KdlNode) (key : String) : Option KdlValue :=
  (n.entries.find? (fun e => e.name = some key)).map KdlEntry.value

/-- Modelled from the spec: the first same-named child node, if any
(`kdl_child_with_name!` / `kdl_get_child!`). -/
def KdlNode.childNamed (n : KdlNode) (key : String) : Option KdlNode :=
  (n.childrenNodes.getD []).find? (fun c => c.name = key)

/-- Modelled from the spec: the value carried by a same-named child node
(its first entry), if any. -/
def KdlNode.childValue (n : KdlNode) (key : String) : Option KdlValue :=
  (n.childNamed key).bind (fun c => c.entries.head?.map KdlEntry.value)

/-- Modelled from the spec: the supplied value for an attribute, looked up
first among header properties and then among same-named valued children. -/
def kdlPropOrChildValue (n : KdlNode) (key : String) : Option KdlValue :=
  match n.propValue key with
  | some v => some v
  | none => n.childValue key

/-- Modelled from the spec: `kdl_property_or_child_value_node!` — the node
carrying a supplied value for the attribute (used only for its span). -/
def kdlPropOrChildValueNode (n : KdlNode) (key : String) : Option KdlNode :=
  if (n.propValue key).isSome then some n
  else if (n.childValue key).isSome then n.childNamed key
  else none

/-- Modelled from the spec: `kdl_get_string_property_or_child_value!` —
the supplied value when it is a string, silently absent otherwise. -/
def kdlGetString (n : KdlNode) (key : String) : Option String :=
  (kdlPropOrChildValue n key).bind KdlValue.asString

/-- Modelled from the spec: `kdl_get_int_property_or_child_value!`. -/
def kdlGetInt (n : KdlNode) (key : String) : Option Int :=
  (kdlPropOrChildValue n key).bind KdlValue.asInt

/-- Modelled from the spec: `kdl_get_bool_property_or_child_value!`. -/
def kdlGetBool (n : KdlNode) (key : String) : Option Bool :=
  (kdlPropOrChildValue n key).bind KdlValue.asBool

/-- Modelled from the spec: `kdl_get_string_property_or_child_value_with_error!`
— a present-but-non-string value is a positioned error, distinguished from
absence. -/
def kdlGetStringWithError (n : KdlNode) (key : String) :
    Except ConfigError (Option String) :=
  match kdlPropOrChildValue n key with
  | none => .ok none
  | some v =>
    match v.asString with
    | some s => .ok (some s)
    | none => .error (kdlParsingError ("Failed to parse " ++ key ++ ": not a valid string") n)

/-- Modelled from the spec: `kdl_get_bool_property_or_child_value_with_error!`. -/
def kdlGetBoolWithError (n : KdlNode) (key : String) :
    Except ConfigError (Option Bool) :=
  match kdlPropOrChildValue n key with
  | none => .ok none
  | some v =>
    match v.asBool with
    | some b => .ok (some b)
    | none => .error (kdlParsingError ("Failed to parse " ++ key ++ ": not a valid boolean") n)

/-- Modelled from the spec: `kdl_string_arguments!` — all entries of a node
as strings, an error when one is not a string. -/
def kdlStringArguments (n : KdlNode) : Option (List String) :=
  n.entries.mapM (fun e => e.value.asString)

/-- Modelled from the spec: `kdl_property_names!` — the names of the named
header properties of a node. -/
def kdlPropertyNames (n : KdlNode) : List String :=
  n.entries.filterMap KdlEntry.name

/-- The source's `as usize` cast on a KDL `i64` value: reduction modulo
2^64 (two's-complement wraparound for negative values). -/
def usizeOfInt (n : Int) : Nat :=
  (n % (2 ^ 64 : Nat)).toNat

/-! ## The layout data model

The types below are `crate::input::layout` types consumed by the parser
(`TiledPaneLayout`, `FloatingPaneLayout`, `Run`, ...).  Their definition
file is not among the staged sources, so fields and methods are modelled
from the spec (section 3 of the spec, plus the field usage visible in the
staged parser). -/

inductive SplitDirection where
  | horizontal
  | vertical
deriving Repr, DecidableEq

instance : Inhabited SplitDirection := ⟨.horizontal⟩

/-- Modelled from the spec: default split direction (Horizontal-equivalent). -/
def SplitDirection.default : SplitDirection := .horizontal

/-- Modelled from the spec: split direction strings must be exactly
"horizontal" or "vertical". -/
def SplitDirection.from_str (s : String) : Except Unit SplitDirection :=
  if s = "horizontal" then .ok .horizontal
  else if s = "vertical" then .ok .vertical
  else .error ()

inductive SplitSize where
  | percent (n : Nat)
  | fixed (n : Nat)
deriving Repr, DecidableEq

/-- The numeric value of a non-empty all-digit character list. -/
def charsToNat : List Char → Option Nat
  | [] => none
  | cs => go cs 0
where go : List Char → Nat → Option Nat
  | [], acc => some acc
  | c :: rest, acc =>
    if c.isDigit then go rest (acc * 10 + (c.toNat - 48)) else none

/-- The percentage of an "N%" character list, if it has that shape. -/
def percentFromChars (cs : List Char) : Option Nat :=
  match cs.getLast? with
  | some '%' => charsToNat cs.dropLast
  | _ => none

/-- Modelled from the spec: the textual form of a split size is a quoted
"N%" string with N in 0..100 (fixed sizes are supplied as bare integers,
not strings). -/
def SplitSize.from_str (s : String) : Except Unit SplitSize :=
  match percentFromChars s.data with
  | some n => if n ≤ 100 then .ok (.percent n) else .error ()
  | none => .error ()

inductive PercentOrFixed where
  | percent (n : Nat)
  | fixed (n : Nat)
deriving Repr, DecidableEq

/-- Modelled from the spec: same textual policy as `SplitSize`. -/
def PercentOrFixed.from_str (s : String) : Except Unit PercentOrFixed :=
  match percentFromChars s.data with
  | some n => if n ≤ 100 then .ok (.percent n) else .error ()
  | none => .error ()

/-- Modelled from the spec: zero test of a percent-or-fixed value. -/
def PercentOrFixed.is_zero : PercentOrFixed → Bool
  | .percent 0 => true
  | .fixed 0 => true
  | _ => false

structure RunCommand where
  command : Path
  args : List String
  cwd : Option Path
  hold_on_close : Bool
  hold_on_start : Bool
deriving Repr, DecidableEq

/-- `RunPlugin`; the source field `_allow_exec_host_cmd` keeps its leading
underscore in the KDL attribute name but drops it as a Lean field; the
typed `RunPluginLocation` is modelled opaquely as a string locator. -/
structure RunPlugin where
  allow_exec_host_cmd : Bool
  location : String
deriving Repr, DecidableEq

inductive Run where
  | cwd (p : Path)
  | command (c : RunCommand)
  | editFile (p : Path) (line : Option Nat)
  | plugin (p : RunPlugin)
deriving Repr, DecidableEq

/-- Modelled from the spec: the combined cwd prefix is pushed onto a run
action's own cwd (path-join, prefix on the left). -/
def Run.add_cwd (r : Run) (cwd : Path) : Run :=
  match r with
  | .cwd p => .cwd (cwd.join p)
  | .command c => .command ⟨c.command, c.args,
      some (match c.cwd with | some p => cwd.join p | none => cwd),
      c.hold_on_close, c.hold_on_start⟩
  | .editFile p l => .editFile (cwd.join p) l
  | .plugin p => .plugin p

/-- Modelled from the spec: run-action merge — the template's (base) action
is the structural base and the consumer's (other) non-none action is merged
on top; a consumer `Cwd` against a template command only contributes its
path as the command's cwd. -/
def Run.merge : Option Run → Option Run → Option Run
  | some (.command c), some (.cwd p) =>
      some (.command ⟨c.command, c.args, some (c.cwd.getD p),
        c.hold_on_close, c.hold_on_start⟩)
  | _, some o => some o
  | some b, none => some b
  | none, none => none

/-- Modelled from the spec: consumer-supplied `args` are grafted onto a
resulting run command. -/
def Run.add_args (r : Run) (args : Option (List String)) : Run :=
  match r, args with
  | .command c, some a => .command ⟨c.command, a, c.cwd, c.hold_on_close, c.hold_on_start⟩
  | _, _ => r

/-- Modelled from the spec: consumer-supplied `close_on_exit` is grafted
onto a resulting run command (`hold_on_close` is its negation). -/
def Run.add_close_on_exit (r : Run) (close_on_exit : Option Bool) : Run :=
  match r, close_on_exit with
  | .command c, some v => .command ⟨c.command, c.args, c.cwd, !v, c.hold_on_start⟩
  | _, _ => r

/-- Modelled from the spec: consumer-supplied `start_suspended` is grafted
onto a resulting run command (`hold_on_start` equals it). -/
def Run.add_start_suspended (r : Run) (start_suspended : Option Bool) : Run :=
  match r, start_suspended with
  | .command c, some v => .command ⟨c.command, c.args, c.cwd, c.hold_on_close, v⟩
  | _, _ => r

/-- `TiledPaneLayout` (spec section 3): the recursive tiled tree.  It is an
inductive because Lean structures cannot be recursive; accessor functions
mirror the Rust field names. -/
inductive TiledPaneLayout where
  | mk (borderless : Bool) (focus : Option Bool) (name : Option String)
      (split_size : Option SplitSize) (run : Option Run)
      (children_split_direction : SplitDirection)
      (external_children_index : Option Nat)
      (children : List TiledPaneLayout)
      (children_are_stacked : Bool)
deriving Repr

namespace TiledPaneLayout

def borderless : TiledPaneLayout → Bool
  | .mk b _ _ _ _ _ _ _ _ => b

def focus : TiledPaneLayout → Option Bool
  | .mk _ f _ _ _ _ _ _ _ => f

def name : TiledPaneLayout → Option String
  | .mk _ _ n _ _ _ _ _ _ => n

def split_size : TiledPaneLayout → Option SplitSize
  | .mk _ _ _ s _ _ _ _ _ => s

def run : TiledPaneLayout → Option Run
  | .mk _ _ _ _ r _ _ _ _ => r

def children_split_direction : TiledPaneLayout → SplitDirection
  | .mk _ _ _ _ _ d _ _ _ => d

def external_children_index : TiledPaneLayout → Option Nat
  | .mk _ _ _ _ _ _ i _ _ => i

def children : TiledPaneLayout → List TiledPaneLayout
  | .mk _ _ _ _ _ _ _ c _ => c

def children_are_stacked : TiledPaneLayout → Bool
  | .mk _ _ _ _ _ _ _ _ s => s

/-- `TiledPaneLayout::default()`: an empty/default pane. -/
def default : TiledPaneLayout :=
  .mk false none none none none SplitDirection.default none [] false

def withBorderless (t : TiledPaneLayout) (v : Bool) : TiledPaneLayout :=
  match t with
  | .mk _ f n s r d i c st => .mk v f n s r d i c st

def withFocus (t : TiledPaneLayout) (v : Option Bool) : TiledPaneLayout :=
  match t with
  | .mk b _ n s r d i c st => .mk b v n s r d i c st

def withName (t : TiledPaneLayout) (v : Option String) : TiledPaneLayout :=
  match t with
  | .mk b f _ s r d i c st => .mk b f v s r d i c st

def withSplitSize (t : TiledPaneLayout) (v : Option SplitSize) : TiledPaneLayout :=
  match t with
  | .mk b f n _ r d i c st => .mk b f n v r d i c st

def withRun (t : TiledPaneLayout) (v : Option Run) : TiledPaneLayout :=
  match t with
  | .mk b f n s _ d i c st => .mk b f n s v d i c st

def withEci (t : TiledPaneLayout) (v : Option Nat) : TiledPaneLayout :=
  match t with
  | .mk b f n s r d _ c st => .mk b f n s r d v c st

def withChildren (t : TiledPaneLayout) (v : List TiledPaneLayout) : TiledPaneLayout :=
  match t with
  | .mk b f n s r d i _ st => .mk b f n s r d i v st

def withStacked (t : TiledPaneLayout) (v : Bool) : TiledPaneLayout :=
  match t with
  | .mk b f n s r d i c _ => .mk b f n s r d i c v

end TiledPaneLayout

instance : Inhabited TiledPaneLayout := ⟨TiledPaneLayout.default⟩

/-- Modelled from the spec: the number of `children` markers in the whole
tree (`TiledPaneLayout::children_block_count`). -/
def TiledPaneLayout.children_block_count : TiledPaneLayout → Nat
  | .mk _ _ _ _ _ _ eci ch _ => (if eci.isSome then 1 else 0) + go ch
where go : List TiledPaneLayout → Nat
  | [] => 0
  | t :: ts => t.children_block_count + go ts

/-- Insertion of an element at an index of a list (`Vec::insert`). -/
def listInsertAt {α : Type} (l : List α) (i : Nat) (x : α) : List α :=
  l.take i ++ x :: l.drop i

/-- Modelled from the spec: `TiledPaneLayout::insert_children_layout` —
the consumer's sibling layout is spliced into the tree at the recorded
marker index (the first marker found, cleared in the output); returns
whether an insertion point was found. -/
def TiledPaneLayout.insert_children_layout (t : TiledPaneLayout)
    (child_panes_layout : TiledPaneLayout) : TiledPaneLayout × Bool :=
  match t with
  | .mk b f n s r d eci ch st =>
    match eci with
    | some idx => (.mk b f n s r d none (listInsertAt ch idx child_panes_layout) st, true)
    | none =>
      let res := go ch
      (.mk b f n s r d none res.1 st, res.2)
where go : List TiledPaneLayout → List TiledPaneLayout × Bool
  | [] => ([], false)
  | c :: cs =>
    let r := TiledPaneLayout.insert_children_layout c child_panes_layout
    if r.2 then (r.1 :: cs, true)
    else
      let rs := go cs
      (c :: rs.1, rs.2)

/-- Modelled from the spec: `TiledPaneLayout::add_cwd_to_layout` — the
combined prefix is pushed onto every descendant pane's own cwd; a pane
with no run action receives a bare `Cwd` action. -/
def TiledPaneLayout.add_cwd_to_layout (t : TiledPaneLayout) (cwd : Path) :
    TiledPaneLayout :=
  match t with
  | .mk b f n s r d eci ch st =>
    let r' := match r with
      | some run => some (run.add_cwd cwd)
      | none => some (Run.cwd cwd)
    .mk b f n s r' d eci (go ch) st
where go : List TiledPaneLayout → List TiledPaneLayout
  | [] => []
  | c :: cs => c.add_cwd_to_layout cwd :: go cs

/-- `FloatingPaneLayout` (spec section 3): leaf-only floating pane. -/
structure FloatingPaneLayout where
  name : Option String := none
  height : Option PercentOrFixed := none
  width : Option PercentOrFixed := none
  x : Option PercentOrFixed := none
  y : Option PercentOrFixed := none
  run : Option Run := none
  focus : Option Bool := none
deriving Repr, DecidableEq

/-- Modelled from the spec: cwd propagation onto a floating pane. -/
def FloatingPaneLayout.add_cwd_to_layout (p : FloatingPaneLayout) (cwd : Path) :
    FloatingPaneLayout :=
  { p with run := match p.run with
      | some run => some (run.add_cwd cwd)
      | none => some (Run.cwd cwd) }

/-- Modelled from the spec: `FloatingPaneLayout::from(&TiledPaneLayout)` —
the neutral attributes of an `Either` template carried over to a floating
pane. -/
def FloatingPaneLayout.fromTiled (t : TiledPaneLayout) : FloatingPaneLayout :=
  { name := t.name, run := t.run, focus := t.focus }

inductive PaneOrFloatingPane where
  | Pane (t : TiledPaneLayout)
  | FloatingPane (f : FloatingPaneLayout)
  | Either (t : TiledPaneLayout)
deriving Repr

inductive LayoutConstraint where
  | MaxPanes (n : Nat)
  | MinPanes (n : Nat)
  | NoConstraint
deriving Repr, DecidableEq

/-- Modelled from the spec: a stable implementation-defined total-order key
for constraints (used as the ordered-map key of swap layouts). -/
def LayoutConstraint.orderKey : LayoutConstraint → Nat × Nat
  | .MaxPanes n => (0, n)
  | .MinPanes n => (1, n)
  | .NoConstraint => (2, 0)

/-- Modelled from the spec: ordered-map insertion keyed by the constraint
order (`BTreeMap::insert`: replaces an equal key). -/
def constraintMapInsert {α : Type} (m : List (LayoutConstraint × α))
    (k : LayoutConstraint) (v : α) : List (LayoutConstraint × α) :=
  match m with
  | [] => [(k, v)]
  | (k', v') :: rest =>
    if k = k' then (k, v) :: rest
    else if k.orderKey.1 < k'.orderKey.1 ∨
        (k.orderKey.1 = k'.orderKey.1 ∧ k.orderKey.2 < k'.orderKey.2) then
      (k, v) :: (k', v') :: rest
    else (k', v') :: constraintMapInsert rest k v

/-- `SwapTiledLayout`: ordered mapping constraint → tiled tree. -/
def SwapTiledLayout := List (LayoutConstraint × TiledPaneLayout)

/-- `SwapFloatingLayout`: ordered mapping constraint → floating panes. -/
def SwapFloatingLayout := List (LayoutConstraint × List FloatingPaneLayout)

/-- `Layout` (spec section 3): the final output. -/
structure Layout where
  tabs : List (Option String × TiledPaneLayout × List FloatingPaneLayout) := []
  template : Option (TiledPaneLayout × List FloatingPaneLayout) := none
  focused_tab_index : Option Nat := none
  swap_tiled_layouts : List SwapTiledLayout := []
  swap_floating_layouts : List SwapFloatingLayout := []

/-! ## Registries (HashMap model) -/

def mapGet {α : Type} (m : List (String × α)) (k : String) : Option α :=
  (m.find? (fun p => p.1 = k)).map Prod.snd

def mapContains {α : Type} (m : List (String × α)) (k : String) : Bool :=
  (mapGet m k).isSome

/-- `HashMap::insert` (replace an existing key, else append). -/
def mapInsert {α : Type} (m : List (String × α)) (k : String) (v : α) :
    List (String × α) :=
  match m with
  | [] => [(k, v)]
  | (k', v') :: rest =>
    if k' = k then (k, v) :: rest else (k', v') :: mapInsert rest k v

def mapKeys {α : Type} (m : List (String × α)) : List String :=
  m.map Prod.fst

/-! ## The parser state

`KdlLayoutParser`'s per-call mutable state (spec: "Scoped registries
instead of global state").  The two function fields model external
collaborators: `urlParse` models `url::Url::parse` (the URL crate) and
`locFromUrl` models `RunPluginLocation::try_from` (repository code outside
the staged sources); both are modelled from the spec as opaque fallible
capabilities. -/

structure KdlLayoutParserState where
  global_cwd : Option Path
  tab_templates : List (String × (TiledPaneLayout × List FloatingPaneLayout × KdlNode))
  pane_templates : List (String × (PaneOrFloatingPane × KdlNode))
  default_tab_template : Option (TiledPaneLayout × List FloatingPaneLayout × KdlNode)
  urlParse : String → Except String String
  locFromUrl : String → Except ConfigError String

/-! ## Reserved words and property predicates (source lines 54-118) -/

def is_a_reserved_word (word : String) : Bool :=
  word = "pane" || word = "layout" || word = "pane_template" ||
  word = "tab_template" || word = "default_tab_template" ||
  word = "command" || word = "edit" || word = "plugin" ||
  word = "children" || word = "tab" || word = "args" ||
  word = "close_on_exit" || word = "start_suspended" ||
  word = "borderless" || word = "focus" || word = "name" ||
  word = "size" || word = "cwd" || word = "split_direction" ||
  word = "swap_tiled_layout" || word = "swap_floating_layout"

def is_a_valid_pane_property (property_name : String) : Bool :=
  property_name = "borderless" || property_name = "focus" ||
  property_name = "name" || property_name = "size" ||
  property_name = "plugin" || property_name = "command" ||
  property_name = "edit" || property_name = "cwd" ||
  property_name = "args" || property_name = "close_on_exit" ||
  property_name = "start_suspended" || property_name = "split_direction" ||
  property_name = "pane" || property_name = "children"

def is_a_valid_floating_pane_property (property_name : String) : Bool :=
  property_name = "borderless" || property_name = "focus" ||
  property_name = "name" || property_name = "plugin" ||
  property_name = "command" || property_name = "edit" ||
  property_name = "cwd" || property_name = "args" ||
  property_name = "close_on_exit" || property_name = "start_suspended" ||
  property_name = "x" || property_name = "y" ||
  property_name = "width" || property_name = "height"

def is_a_valid_tab_property (property_name : String) : Bool :=
  property_name = "focus" || property_name = "name" ||
  property_name = "split_direction" || property_name = "cwd" ||
  property_name = "floating_panes" || property_name = "children" ||
  property_name = "max_panes" || property_name = "min_panes"

/-! ## Name validation (source lines 119-167) -/

def assert_legal_node_name (nm : String) (kdl_node : KdlNode) :
    Except ConfigError Unit :=
  if nm.data.any Char.isWhitespace then
    .error (layoutKdlError ("Node names (" ++ nm ++ ") cannot contain whitespace.")
      kdl_node.offset kdl_node.len)
  else if is_a_reserved_word nm then
    .error (layoutKdlError ("Node name '" ++ nm ++ "' is a reserved word.")
      kdl_node.offset kdl_node.len)
  else
    .ok ()

def assert_legal_template_name (nm : String) (kdl_node : KdlNode) :
    Except ConfigError Unit :=
  if nm.data.isEmpty then
    .error (layoutKdlError "Template names cannot be empty"
      kdl_node.offset kdl_node.len)
  else if nm.data.contains ')' || nm.data.contains '(' then
    .error (layoutKdlError "Template names cannot contain parantheses"
      kdl_node.offset kdl_node.len)
  else if (nm.data.head?.map Char.isDigit).getD false then
    .error (layoutKdlError "Template names cannot start with numbers"
      kdl_node.offset kdl_node.len)
  else
    .ok ()

/-! ## Split size and geometry value parsers (source lines 168-256) -/

def parse_split_size (kdl_node : KdlNode) : Except ConfigError (Option SplitSize) :=
  match kdlGetString kdl_node "size" with
  | some size =>
    match SplitSize.from_str size with
    | .ok size => .ok (some size)
    | .error _ => .error (kdlParsingError
        "size should be a fixed number (eg. 1) or a quoted percent (eg. \"50%\")" kdl_node)
  | none =>
  match kdlGetInt kdl_node "size" with
  | some size =>
    if size = 0 then
      .error (kdlParsingError "size should be greater than 0" kdl_node)
    else
      .ok (some (SplitSize.fixed (usizeOfInt size)))
  | none =>
  match kdlPropOrChildValueNode kdl_node "size" with
  | some node => .error (kdlParsingError
      "size should be a fixed number (eg. 1) or a quoted percent (eg. \"50%\")" node)
  | none =>
  match kdl_node.childNamed "size" with
  | some node => .error (kdlParsingError
      "size cannot be bare, it should have a value (eg. 'size 1', or 'size \"50%\"')" node)
  | none => .ok none

/-- Source lines 203-256.  Note the source's fallback branches look up the
literal attribute name "size" (not `value_name`) — embedded faithfully. -/
def parse_percent_or_fixed (kdl_node : KdlNode) (value_name : String)
    (can_be_zero : Bool) : Except ConfigError (Option PercentOrFixed) :=
  match kdlGetString kdl_node value_name with
  | some size =>
    match PercentOrFixed.from_str size with
    | .ok size =>
      if !can_be_zero && size.is_zero then
        .error (kdlParsingError (value_name ++ " should be greater than 0") kdl_node)
      else
        .ok (some size)
    | .error _ => .error (kdlParsingError
        (value_name ++ " should be a fixed number (eg. 1) or a quoted percent (eg. \"50%\")")
        kdl_node)
  | none =>
  match kdlGetInt kdl_node value_name with
  | some size =>
    if size = 0 && !can_be_zero then
      .error (kdlParsingError (value_name ++ " should be greater than 0") kdl_node)
    else
      .ok (some (PercentOrFixed.fixed (usizeOfInt size)))
  | none =>
  match kdlPropOrChildValueNode kdl_node "size" with
  | some node => .error (kdlParsingError
      (value_name ++ " should be a fixed number (eg. 1) or a quoted percent (eg. \"50%\")")
      node)
  | none =>
  match kdl_node.childNamed "size" with
  | some node => .error (kdlParsingError
      (value_name ++ " cannot be bare, it should have a value (eg. 'size 1', or 'size \"50%\"')")
      node)
  | none => .ok none

def parse_split_direction (kdl_node : KdlNode) : Except ConfigError SplitDirection :=
  match kdlGetStringWithError kdl_node "split_direction" with
  | .error e => .error e
  | .ok (some direction) =>
    match SplitDirection.from_str direction with
    | .ok split_direction => .ok split_direction
    | .error _ => .error (kdlParsingError
        ("split_direction should be either \"horizontal\" or \"vertical\" found: " ++ direction)
        kdl_node)
  | .ok none => .ok SplitDirection.default

/-! ## Run-action resolution (source lines 257-409) -/

/-- Source lines 257-288.  The plugin attribute read by the source is the
literally underscore-prefixed `_allow_exec_host_cmd`. -/
def parse_plugin_block (self : KdlLayoutParserState) (plugin_block : KdlNode) :
    Except ConfigError (Option Run) := do
  let allow_exec_host_cmd ← kdlGetBoolWithError plugin_block "_allow_exec_host_cmd"
  let allow_exec_host_cmd := allow_exec_host_cmd.getD false
  let string_url ← match ← kdlGetStringWithError plugin_block "location" with
    | some s => pure s
    | none => Except.error (layoutKdlError "Plugins must have a location"
        plugin_block.offset plugin_block.len)
  let url_node ← match kdlPropOrChildValueNode plugin_block "location" with
    | some n => pure n
    | none => Except.error (layoutKdlError "Plugins must have a location"
        plugin_block.offset plugin_block.len)
  let url ← match self.urlParse string_url with
    | .ok u => pure u
    | .error e => Except.error (layoutKdlError ("Failed to parse url: " ++ e)
        url_node.offset url_node.len)
  let location ← self.locFromUrl url
  pure (some (Run.plugin ⟨allow_exec_host_cmd, location⟩))

/-- Source lines 289-304. -/
def parse_args (pane_node : KdlNode) : Except ConfigError (Option (List String)) :=
  match pane_node.childNamed "args" with
  | some kdl_args =>
    if kdl_args.entries.isEmpty then
      .error (kdlParsingError
        "args cannot be empty and should contain one or more command arguments (eg. args \"-h\" \"-v\")"
        kdl_args)
    else
      match kdlStringArguments kdl_args with
      | some strs => .ok (some strs)
      | none => .error (kdlParsingError "Argument must be a string" kdl_args)
  | none => .ok none

/-- Source lines 305-312 (the source method `cwd_prefix`). -/
def cwdPrefixOf (self : KdlLayoutParserState) (tab_cwd : Option Path) :
    Except ConfigError (Option Path) :=
  .ok (match self.global_cwd, tab_cwd with
    | some global_cwd, some tab_cwd => some (global_cwd.join tab_cwd)
    | none, some tab_cwd => some tab_cwd
    | some global_cwd, none => some global_cwd
    | none, none => none)

/-- Source lines 313-318. -/
def parse_cwd (kdl_node : KdlNode) : Except ConfigError (Option Path) :=
  (kdlGetStringWithError kdl_node "cwd").map (fun o => o.map Path.fromString)

/-- Source lines 1105-1137. -/
def assert_no_bare_attributes_in_pane_node (command : Option Path)
    (args : Option (List String)) (close_on_exit : Option Bool)
    (start_suspended : Option Bool) (pane_node : KdlNode) :
    Except ConfigError Unit :=
  if command.isNone then
    if close_on_exit.isSome then
      .error (layoutKdlError "close_on_exit can only be set if a command was specified"
        pane_node.offset pane_node.len)
    else if start_suspended.isSome then
      .error (layoutKdlError "start_suspended can only be set if a command was specified"
        pane_node.offset pane_node.len)
    else if args.isSome then
      .error (layoutKdlError "args can only be set if a command was specified"
        pane_node.offset pane_node.len)
    else .ok ()
  else .ok ()

/-- Source lines 1076-1104. -/
def assert_no_bare_attributes_in_pane_node_with_template (pane_run : Option Run)
    (pane_template_run : Option Run) (args : Option (List String))
    (close_on_exit : Option Bool) (start_suspended : Option Bool)
    (pane_node : KdlNode) : Except ConfigError Unit :=
  if pane_run.isNone && pane_template_run.isNone && args.isSome then
    .error (kdlParsingError
      "args can only be specified if a command was specified either in the pane_template or in the pane"
      pane_node)
  else if pane_run.isNone && pane_template_run.isNone && close_on_exit.isSome then
    .error (kdlParsingError
      "close_on_exit can only be specified if a command was specified either in the pane_template or in the pane"
      pane_node)
  else if pane_run.isNone && pane_template_run.isNone && start_suspended.isSome then
    .error (kdlParsingError
      "start_suspended can only be specified if a command was specified either in the pane_template or in the pane"
      pane_node)
  else .ok ()

/-- Source lines 319-363. -/
def parse_pane_command (pane_node : KdlNode) (is_template : Bool) :
    Except ConfigError (Option Run) := do
  let command ← (kdlGetStringWithError pane_node "command").map
    (fun o => o.map Path.fromString)
  let edit ← (kdlGetStringWithError pane_node "edit").map
    (fun o => o.map Path.fromString)
  let cwd ← parse_cwd pane_node
  let args ← parse_args pane_node
  let close_on_exit ← kdlGetBoolWithError pane_node "close_on_exit"
  let start_suspended ← kdlGetBoolWithError pane_node "start_suspended"
  let _ ← if !is_template then
      assert_no_bare_attributes_in_pane_node command args close_on_exit
        start_suspended pane_node
    else pure ()
  let hold_on_close := (close_on_exit.map (fun c => !c)).getD true
  let hold_on_start := (start_suspended.map (fun c => c)).getD false
  match command, edit, cwd with
  | none, none, some cwd => pure (some (Run.cwd cwd))
  | some command, none, cwd =>
    pure (some (Run.command ⟨command, args.getD [], cwd, hold_on_close, hold_on_start⟩))
  | none, some edit, some cwd => pure (some (Run.editFile (cwd.join edit) none))
  | none, some edit, none => pure (some (Run.editFile edit none))
  | some _, some _, _ => Except.error (layoutKdlError
      "cannot have both a command and an edit instruction for the same pane"
      pane_node.offset pane_node.len)
  | none, none, none => pure none

/-- Source lines 364-386. -/
def parse_command_plugin_or_edit_block (self : KdlLayoutParserState)
    (kdl_node : KdlNode) : Except ConfigError (Option Run) := do
  let run ← parse_pane_command kdl_node false
  match kdl_node.childNamed "plugin" with
  | some plugin_block =>
    let has_non_cwd_run_prop := (run.map (fun r => match r with
      | Run.cwd _ => false
      | _ => true)).getD false
    if has_non_cwd_run_prop then
      Except.error (layoutKdlError
        "Cannot have both a command/edit and a plugin block for a single pane"
        plugin_block.offset plugin_block.len)
    else
      parse_plugin_block self plugin_block
  | none => pure run

/-- Source lines 387-409. -/
def parse_command_plugin_or_edit_block_for_template (self : KdlLayoutParserState)
    (kdl_node : KdlNode) : Except ConfigError (Option Run) := do
  let run ← parse_pane_command kdl_node true
  match kdl_node.childNamed "plugin" with
  | some plugin_block =>
    let has_non_cwd_run_prop := (run.map (fun r => match r with
      | Run.cwd _ => false
      | _ => true)).getD false
    if has_non_cwd_run_prop then
      Except.error (layoutKdlError
        "Cannot have both a command/edit and a plugin block for a single pane"
        plugin_block.offset plugin_block.len)
    else
      parse_plugin_block self plugin_block
  | none => pure run

/-! ## Structural predicates and mixed-property checks
(source lines 1044-1075, 1138-1296) -/

/-- Source lines 1044-1056. -/
def has_child_nodes (self : KdlLayoutParserState) (kdl_node : KdlNode) : Bool :=
  (kdl_node.childrenNodes.getD []).any (fun child =>
    child.name = "pane" || child.name = "children" ||
    mapContains self.pane_templates child.name)

/-- Source lines 1057-1075. -/
def has_child_panes_tabs_or_templates (self : KdlLayoutParserState)
    (kdl_node : KdlNode) : Bool :=
  (kdl_node.childrenNodes.getD []).any (fun child =>
    child.name = "pane" || child.name = "children" || child.name = "tab" ||
    mapContains self.pane_templates child.name)

/-- Source lines 1138-1148. -/
def assert_one_children_block (layout : TiledPaneLayout) (kdl_node : KdlNode) :
    Except ConfigError Unit :=
  let children_block_count := layout.children_block_count
  if children_block_count ≠ 1 then
    .error (layoutKdlError
      ("This template has " ++ toString children_block_count ++
        " children blocks, only 1 is allowed when used to insert child panes")
      kdl_node.offset kdl_node.len)
  else .ok ()

/-- Shared loop of the entry-name validators (source lines 1149-1237):
each entry must name a property passing `valid`, positional string entries
counting as property names. -/
def assertValidEntries (valid : String → Bool) (errPrefix : String)
    (node : KdlNode) : List KdlEntry → Except ConfigError Unit
  | [] => .ok ()
  | entry :: rest =>
    match entry.name with
    | some key =>
      if !valid key then
        .error (layoutKdlError (errPrefix ++ ": " ++ key) node.offset node.len)
      else assertValidEntries valid errPrefix node rest
    | none =>
      match entry.value.asString with
      | some s =>
        if !valid s then
          .error (layoutKdlError (errPrefix ++ ": " ++ s) node.offset node.len)
        else assertValidEntries valid errPrefix node rest
      | none => .error (layoutKdlError errPrefix node.offset node.len)

/-- Source lines 1149-1175. -/
def assert_valid_pane_properties (pane_node : KdlNode) : Except ConfigError Unit :=
  assertValidEntries is_a_valid_pane_property "Unknown pane property" pane_node
    pane_node.entries

/-- Source lines 1176-1205. -/
def assert_valid_floating_pane_properties (pane_node : KdlNode) :
    Except ConfigError Unit :=
  assertValidEntries is_a_valid_floating_pane_property "Unknown floating pane property"
    pane_node pane_node.entries

/-- Source lines 1206-1237 (note the source's disjunction: the name must be
valid for both kinds). -/
def assert_valid_pane_or_floating_pane_properties (pane_node : KdlNode) :
    Except ConfigError Unit :=
  assertValidEntries
    (fun s => !(!is_a_valid_floating_pane_property s || !is_a_valid_pane_property s))
    "Unknown pane property" pane_node pane_node.entries

/-- Source lines 1238-1250. -/
def assert_valid_tab_properties (pane_node : KdlNode) : Except ConfigError Unit :=
  match (kdlPropertyNames pane_node).find? (fun nm => !is_a_valid_tab_property nm) with
  | some nm => .error (layoutKdlError ("Invalid tab property '" ++ nm ++ "'")
      pane_node.offset pane_node.len)
  | none => .ok ()

/-- Source lines 1251-1296. -/
def assert_no_mixed_children_and_properties (self : KdlLayoutParserState)
    (kdl_node : KdlNode) : Except ConfigError Unit := do
  let has_borderless_prop ←
    (kdlGetBoolWithError kdl_node "borderless").map Option.isSome
  let has_cwd_prop ←
    (kdlGetStringWithError kdl_node "cwd").map Option.isSome
  let run ← parse_command_plugin_or_edit_block self kdl_node
  let has_non_cwd_run_prop := (run.map (fun r => match r with
    | Run.cwd _ => false
    | _ => true)).getD false
  let has_nested_nodes_or_children_block := has_child_panes_tabs_or_templates self kdl_node
  if has_nested_nodes_or_children_block &&
      (has_borderless_prop || has_non_cwd_run_prop || has_cwd_prop) then
    let offending_nodes :=
      (if has_borderless_prop then ["borderless"] else []) ++
      (if has_non_cwd_run_prop then ["command/edit/plugin"] else []) ++
      (if has_cwd_prop then ["cwd"] else [])
    Except.error (layoutKdlError
      ("Cannot have both properties (" ++ String.intercalate ", " offending_nodes ++
        ") and nested children")
      kdl_node.offset kdl_node.len)
  else pure ()

/-- Source lines 1297-1313: insert the consumer's child layout at the
template's marker, or fail when the template has no marker. -/
def insert_layout_children_or_error (layout : TiledPaneLayout)
    (child_panes_layout : TiledPaneLayout) (kdl_node : KdlNode) :
    Except ConfigError TiledPaneLayout :=
  let res := layout.insert_children_layout child_panes_layout
  if !res.2 then
    .error (layoutKdlError "This template does not have children"
      kdl_node.offset kdl_node.len)
  else .ok res.1

/-- Source lines 490-514: the enumeration index of a `children` marker
among a consumer node's children (with its `stacked` flag). -/
def populate_external_children_index (kdl_node : KdlNode) :
    Except ConfigError (Option (Nat × Bool)) :=
  go 0 (kdl_node.childrenNodes.getD [])
where go (i : Nat) : List KdlNode → Except ConfigError (Option (Nat × Bool))
  | [] => .ok none
  | child :: rest =>
    if child.name = "children" then do
      let stacked ← (kdlGetBoolWithError kdl_node "stacked").map (fun o => o.getD false)
      pure (some (i, stacked))
    else go (i + 1) rest

/-! ## Floating panes (source lines 437-461, 601-723, 1895-1930) -/

/-- Source lines 437-461. -/
def parse_floating_pane_node (self : KdlLayoutParserState) (kdl_node : KdlNode) :
    Except ConfigError FloatingPaneLayout := do
  let _ ← assert_valid_floating_pane_properties kdl_node
  let height ← parse_percent_or_fixed kdl_node "height" false
  let width ← parse_percent_or_fixed kdl_node "width" false
  let x ← parse_percent_or_fixed kdl_node "x" true
  let y ← parse_percent_or_fixed kdl_node "y" true
  let run ← parse_command_plugin_or_edit_block self kdl_node
  let focus ← kdlGetBoolWithError kdl_node "focus"
  let nm ← kdlGetStringWithError kdl_node "name"
  let _ ← assert_no_mixed_children_and_properties self kdl_node
  pure ⟨nm, height, width, x, y, run, focus⟩

/-- Source lines 601-723. -/
def parse_floating_pane_node_with_template (self : KdlLayoutParserState)
    (kdl_node : KdlNode) (pane_template : PaneOrFloatingPane)
    (pane_template_kdl_node : KdlNode) : Except ConfigError FloatingPaneLayout :=
  match pane_template with
  | .Pane _ => do
    let pane_template_name ← kdlGetStringWithError pane_template_kdl_node "name"
    Except.error (layoutKdlError
      ("pane_template " ++ pane_template_name.getD "" ++
        ", is a non-floating pane template (derived from its properties) and cannot be applied to a floating pane")
      kdl_node.offset kdl_node.len)
  | .FloatingPane pt => do
    let focus ← kdlGetBoolWithError kdl_node "focus"
    let nm ← kdlGetStringWithError kdl_node "name"
    let args ← parse_args kdl_node
    let close_on_exit ← kdlGetBoolWithError kdl_node "close_on_exit"
    let start_suspended ← kdlGetBoolWithError kdl_node "start_suspended"
    let run ← parse_command_plugin_or_edit_block_for_template self kdl_node
    let _ ← assert_no_bare_attributes_in_pane_node_with_template run pt.run args
      close_on_exit start_suspended kdl_node
    let pt := { pt with run := Run.merge pt.run run }
    let pt := match pt.run with
      | some r => { pt with run := some (((r.add_args args).add_close_on_exit
          close_on_exit).add_start_suspended start_suspended) }
      | none => pt
    let pt := match focus with | some f => { pt with focus := some f } | none => pt
    let pt := match nm with | some n => { pt with name := some n } | none => pt
    let height ← parse_percent_or_fixed kdl_node "height" false
    let width ← parse_percent_or_fixed kdl_node "width" false
    let x ← parse_percent_or_fixed kdl_node "x" true
    let y ← parse_percent_or_fixed kdl_node "y" true
    let pt := match height with | some h => { pt with height := some h } | none => pt
    let pt := match width with | some w => { pt with width := some w } | none => pt
    let pt := match y with | some v => { pt with y := some v } | none => pt
    let pt := match x with | some v => { pt with x := some v } | none => pt
    pure pt
  | .Either pt => do
    let focus ← kdlGetBoolWithError kdl_node "focus"
    let nm ← kdlGetStringWithError kdl_node "name"
    let args ← parse_args kdl_node
    let close_on_exit ← kdlGetBoolWithError kdl_node "close_on_exit"
    let start_suspended ← kdlGetBoolWithError kdl_node "start_suspended"
    let run ← parse_command_plugin_or_edit_block_for_template self kdl_node
    let _ ← assert_no_bare_attributes_in_pane_node_with_template run pt.run args
      close_on_exit start_suspended kdl_node
    let pt := pt.withRun (Run.merge pt.run run)
    let pt := match pt.run with
      | some r => pt.withRun (some (((r.add_args args).add_close_on_exit
          close_on_exit).add_start_suspended start_suspended))
      | none => pt
    let pt := match focus with | some f => pt.withFocus (some f) | none => pt
    let pt := match nm with | some n => pt.withName (some n) | none => pt
    let height ← parse_percent_or_fixed kdl_node "height" false
    let width ← parse_percent_or_fixed kdl_node "width" false
    let x ← parse_percent_or_fixed kdl_node "x" true
    let y ← parse_percent_or_fixed kdl_node "y" true
    let floating_pane := FloatingPaneLayout.fromTiled pt
    let floating_pane := match height with
      | some h => { floating_pane with height := some h } | none => floating_pane
    let floating_pane := match width with
      | some w => { floating_pane with width := some w } | none => floating_pane
    let floating_pane := match y with
      | some v => { floating_pane with y := some v } | none => floating_pane
    let floating_pane := match x with
      | some v => { floating_pane with x := some v } | none => floating_pane
    pure floating_pane

/-- Source lines 1895-1930. -/
def populate_floating_pane_children (self : KdlLayoutParserState)
    (child : KdlNode) (child_floating_panes : List FloatingPaneLayout) :
    Except ConfigError (List FloatingPaneLayout) :=
  go (child.childrenNodes.getD []) child_floating_panes
where go : List KdlNode → List FloatingPaneLayout →
    Except ConfigError (List FloatingPaneLayout)
  | [], acc => .ok acc
  | c :: rest, acc =>
    if c.name = "pane" then do
      let pane_node ← parse_floating_pane_node self c
      let pane_node := match self.global_cwd with
        | some global_cwd => pane_node.add_cwd_to_layout global_cwd
        | none => pane_node
      go rest (acc ++ [pane_node])
    else
      match mapGet self.pane_templates c.name with
      | some (pane_template, pane_template_kdl_node) => do
        let pane_node ← parse_floating_pane_node_with_template self c pane_template
          pane_template_kdl_node
        go rest (acc ++ [pane_node])
      | none => .error (layoutKdlError
          ("floating_panes can only contain pane nodes, found: " ++ c.name)
          c.offset c.len)

/-! ## The recursive pane / template-application engine
(source lines 410-436, 462-489, 515-600, 950-1043)

The recursion over the node tree is fuelled: every function matches on the
fuel and passes the predecessor to each recursive call. -/

mutual

/-- Source lines 410-436. -/
def parse_pane_node (self : KdlLayoutParserState) :
    Nat → KdlNode → Except ConfigError TiledPaneLayout
  | 0, _ => .error fuelError
  | fuel+1, kdl_node => do
    let _ ← assert_valid_pane_properties kdl_node
    let borderless ← kdlGetBoolWithError kdl_node "borderless"
    let focus ← kdlGetBoolWithError kdl_node "focus"
    let nm ← kdlGetStringWithError kdl_node "name"
    let split_size ← parse_split_size kdl_node
    let run ← parse_command_plugin_or_edit_block self kdl_node
    let children_split_direction ← parse_split_direction kdl_node
    let trip ← match kdl_node.childrenNodes with
      | some children => parse_child_pane_nodes_for_pane self fuel children
      | none => pure (none, false, ([] : List TiledPaneLayout))
    let _ ← assert_no_mixed_children_and_properties self kdl_node
    pure (TiledPaneLayout.mk (borderless.getD false) focus nm split_size run
      children_split_direction trip.1 trip.2.2 trip.2.1)

/-- Source lines 990-1043 (returns (external_children_index,
children_are_stacked, parsed panes)). -/
def parse_child_pane_nodes_for_pane (self : KdlLayoutParserState) :
    Nat → List KdlNode →
    Except ConfigError (Option Nat × Bool × List TiledPaneLayout)
  | 0, _ => .error fuelError
  | fuel+1, children =>
    parse_child_pane_nodes_for_pane_go self fuel 0 children none false []

/-- The enumeration loop of `parse_child_pane_nodes_for_pane` (a later
`children` marker overwrites an earlier one, as in the source). -/
def parse_child_pane_nodes_for_pane_go (self : KdlLayoutParserState) :
    Nat → Nat → List KdlNode → Option Nat → Bool → List TiledPaneLayout →
    Except ConfigError (Option Nat × Bool × List TiledPaneLayout)
  | 0, _, _, _, _, _ => .error fuelError
  | _+1, _, [], eci, stacked, nodes => pure (eci, stacked, nodes)
  | fuel+1, i, child :: rest, eci, stacked, nodes =>
    if child.name = "pane" then do
      let n ← parse_pane_node self fuel child
      parse_child_pane_nodes_for_pane_go self fuel (i+1) rest eci stacked (nodes ++ [n])
    else if child.name = "children" then do
      let stacked' ← (kdlGetBoolWithError child "stacked").map (fun o => o.getD false)
      parse_child_pane_nodes_for_pane_go self fuel (i+1) rest (some i) stacked' nodes
    else
      match mapGet self.pane_templates child.name with
      | some (pane_template, pane_template_kdl_node) => do
        let n ← parse_pane_node_with_template self fuel child pane_template false
          pane_template_kdl_node
        parse_child_pane_nodes_for_pane_go self fuel (i+1) rest eci stacked (nodes ++ [n])
      | none =>
        if !is_a_valid_pane_property child.name then
          .error (layoutKdlError ("Unknown pane property: " ++ child.name)
            child.offset child.len)
        else
          parse_child_pane_nodes_for_pane_go self fuel (i+1) rest eci stacked nodes

/-- Source lines 462-489. -/
def insert_children_to_pane_template (self : KdlLayoutParserState) :
    Nat → KdlNode → TiledPaneLayout → KdlNode → Except ConfigError TiledPaneLayout
  | 0, _, _, _ => .error fuelError
  | fuel+1, kdl_node, pane_template, pane_template_kdl_node => do
    let children_split_direction ← parse_split_direction kdl_node
    let trip ← match kdl_node.childrenNodes with
      | some children => parse_child_pane_nodes_for_pane self fuel children
      | none => pure (none, false, ([] : List TiledPaneLayout))
    if trip.2.2.length > 0 then do
      let child_panes_layout := TiledPaneLayout.mk false none none none none
        children_split_direction trip.1 trip.2.2 trip.2.1
      let _ ← assert_one_children_block pane_template pane_template_kdl_node
      insert_layout_children_or_error pane_template child_panes_layout
        pane_template_kdl_node
    else
      pure pane_template

/-- Source lines 515-600: apply a pane template to a consuming node. -/
def parse_pane_node_with_template (self : KdlLayoutParserState) :
    Nat → KdlNode → PaneOrFloatingPane → Bool → KdlNode →
    Except ConfigError TiledPaneLayout
  | 0, _, _, _, _ => .error fuelError
  | fuel+1, kdl_node, pane_template, should_mark_external_children_index,
      pane_template_kdl_node =>
    match pane_template with
    | .Pane pt | .Either pt => do
      let borderless ← kdlGetBoolWithError kdl_node "borderless"
      let focus ← kdlGetBoolWithError kdl_node "focus"
      let nm ← kdlGetStringWithError kdl_node "name"
      let args ← parse_args kdl_node
      let close_on_exit ← kdlGetBoolWithError kdl_node "close_on_exit"
      let start_suspended ← kdlGetBoolWithError kdl_node "start_suspended"
      let split_size ← parse_split_size kdl_node
      let run ← parse_command_plugin_or_edit_block_for_template self kdl_node
      let ext ← if should_mark_external_children_index then
          populate_external_children_index kdl_node
        else pure none
      let _ ← assert_no_bare_attributes_in_pane_node_with_template run pt.run args
        close_on_exit start_suspended kdl_node
      let pt ← insert_children_to_pane_template self fuel kdl_node pt
        pane_template_kdl_node
      let pt := pt.withRun (Run.merge pt.run run)
      let pt := match pt.run with
        | some r => pt.withRun (some (((r.add_args args).add_close_on_exit
            close_on_exit).add_start_suspended start_suspended))
        | none => pt
      let pt := match borderless with | some b => pt.withBorderless b | none => pt
      let pt := match focus with | some f => pt.withFocus (some f) | none => pt
      let pt := match nm with | some n => pt.withName (some n) | none => pt
      let pt := match split_size with | some s => pt.withSplitSize (some s) | none => pt
      let pt := match pt.external_children_index with
        | some index_of_children =>
          pt.withChildren (listInsertAt pt.children index_of_children
            TiledPaneLayout.default)
        | none => pt
      let pt := pt.withEci (ext.map Prod.fst)
      let pt := pt.withStacked ((ext.map Prod.snd).getD false)
      pure pt
    | .FloatingPane _ => do
      let pane_template_name ← kdlGetStringWithError pane_template_kdl_node "name"
      Except.error (layoutKdlError
        ("pane_template " ++ pane_template_name.getD "" ++
          ", is a floating pane template (derived from its properties) and cannot be applied to a tiled pane")
        kdl_node.offset kdl_node.len)

/-- Source lines 950-989. -/
def parse_child_pane_nodes_for_tab (self : KdlLayoutParserState) :
    Nat → List KdlNode → Bool → List FloatingPaneLayout →
    Except ConfigError (List TiledPaneLayout × List FloatingPaneLayout)
  | 0, _, _, _ => .error fuelError
  | fuel+1, children, should_mark_external_children_index, child_floating_panes => do
    let res ← parse_child_pane_nodes_for_tab_go self fuel children
      should_mark_external_children_index [] child_floating_panes
    if res.1.isEmpty then
      pure ([TiledPaneLayout.default], res.2)
    else
      pure res

/-- The loop of `parse_child_pane_nodes_for_tab`. -/
def parse_child_pane_nodes_for_tab_go (self : KdlLayoutParserState) :
    Nat → List KdlNode → Bool → List TiledPaneLayout → List FloatingPaneLayout →
    Except ConfigError (List TiledPaneLayout × List FloatingPaneLayout)
  | 0, _, _, _, _ => .error fuelError
  | _+1, [], _, accNodes, accFloating => pure (accNodes, accFloating)
  | fuel+1, child :: rest, should_mark, accNodes, accFloating =>
    if child.name = "pane" then do
      let n ← parse_pane_node self fuel child
      parse_child_pane_nodes_for_tab_go self fuel rest should_mark
        (accNodes ++ [n]) accFloating
    else
      match mapGet self.pane_templates child.name with
      | some (pane_template, pane_template_kdl_node) => do
        let n ← parse_pane_node_with_template self fuel child pane_template
          should_mark pane_template_kdl_node
        parse_child_pane_nodes_for_tab_go self fuel rest should_mark
          (accNodes ++ [n]) accFloating
      | none =>
        if child.name = "floating_panes" then do
          let accFloating ← populate_floating_pane_children self child accFloating
          parse_child_pane_nodes_for_tab_go self fuel rest should_mark
            accNodes accFloating
        else if is_a_valid_tab_property child.name then
          .error (layoutKdlError
            ("Tab property '" ++ child.name ++
              "' must be placed on the tab title line and not in the child braces")
            child.offset child.len)
        else
          .error (layoutKdlError ("Invalid tab property: " ++ child.name)
            child.offset child.len)

end

/-! ## Tab nodes and tab templates (source lines 920-949, 1314-1482) -/

/-- Source lines 920-949. -/
def parse_tab_node (self : KdlLayoutParserState) (fuel : Nat) (kdl_node : KdlNode) :
    Except ConfigError (Bool × Option String × TiledPaneLayout × List FloatingPaneLayout) := do
  let _ ← assert_valid_tab_properties kdl_node
  let tab_name := kdlGetString kdl_node "name"
  let tab_cwd := (kdlGetString kdl_node "cwd").map Path.fromString
  let is_focused := (kdlGetBool kdl_node "focus").getD false
  let children_split_direction ← parse_split_direction kdl_node
  let res ← match kdl_node.childrenNodes with
    | some children => parse_child_pane_nodes_for_tab self fuel children false []
    | none => pure ([], [])
  let pane_layout := TiledPaneLayout.mk false none none none none
    children_split_direction none res.1 false
  let cwdPre ← cwdPrefixOf self tab_cwd
  let pane_layout := match cwdPre with
    | some p => pane_layout.add_cwd_to_layout p
    | none => pane_layout
  pure (is_focused, tab_name, pane_layout, res.2)

/-- Source lines 1314-1363. -/
def parse_tab_node_with_template (self : KdlLayoutParserState) (fuel : Nat)
    (kdl_node : KdlNode) (tab_layout : TiledPaneLayout)
    (tab_template_floating_panes : List FloatingPaneLayout)
    (should_mark_external_children_index : Bool) (tab_layout_kdl_node : KdlNode) :
    Except ConfigError (Bool × Option String × TiledPaneLayout × List FloatingPaneLayout) := do
  let tab_name := kdlGetString kdl_node "name"
  let tab_cwd := (kdlGetString kdl_node "cwd").map Path.fromString
  let is_focused := (kdlGetBool kdl_node "focus").getD false
  let children_split_direction ← parse_split_direction kdl_node
  let res ← match kdl_node.childrenNodes with
    | some children => do
      let res ← parse_child_pane_nodes_for_tab self fuel children
        should_mark_external_children_index tab_template_floating_panes
      let child_panes_layout := TiledPaneLayout.mk false none none none none
        children_split_direction none res.1 false
      let _ ← assert_one_children_block tab_layout tab_layout_kdl_node
      let t ← insert_layout_children_or_error tab_layout child_panes_layout
        tab_layout_kdl_node
      pure (t, res.2)
    | none =>
      let t := match tab_layout.external_children_index with
        | some index_of_children =>
          tab_layout.withChildren (listInsertAt tab_layout.children
            index_of_children TiledPaneLayout.default)
        | none => tab_layout
      pure (t, tab_template_floating_panes)
  let cwdPre ← cwdPrefixOf self tab_cwd
  let tab_layout := match cwdPre with
    | some p => res.1.add_cwd_to_layout p
    | none => res.1
  let tab_layout := tab_layout.withEci none
  pure (is_focused, tab_name, tab_layout, res.2)

/-- The loop of `parse_tab_template_node` (source lines 1414-1456):
`i` is the enumeration index, `off` the floating-panes offset subtracted
(saturating) from a marker's index. -/
def parse_tab_template_go (self : KdlLayoutParserState) (fuel : Nat) :
    Nat → Nat → List KdlNode → List TiledPaneLayout → List FloatingPaneLayout →
    Option Nat →
    Except ConfigError (List TiledPaneLayout × List FloatingPaneLayout × Option Nat)
  | _, _, [], tab_children, tab_floating_children, eci =>
    pure (tab_children, tab_floating_children, eci)
  | i, off, child :: rest, tab_children, tab_floating_children, eci =>
    if child.name = "pane" then do
      let n ← parse_pane_node self fuel child
      parse_tab_template_go self fuel (i+1) off rest (tab_children ++ [n])
        tab_floating_children eci
    else if child.name = "children" then
      let node_has_child_nodes := (child.childrenNodes.map (fun c => !c.isEmpty)).getD false
      let node_has_entries := !child.entries.isEmpty
      if node_has_child_nodes || node_has_entries then
        .error (layoutKdlError
          "The `children` node must be bare. All properties should be places on the node consuming this template."
          child.offset child.len)
      else
        parse_tab_template_go self fuel (i+1) off rest tab_children
          tab_floating_children (some (i - off))
    else
      match mapGet self.pane_templates child.name with
      | some (pane_template, pane_template_kdl_node) => do
        let n ← parse_pane_node_with_template self fuel child pane_template false
          pane_template_kdl_node
        parse_tab_template_go self fuel (i+1) off rest (tab_children ++ [n])
          tab_floating_children eci
      | none =>
        if child.name = "floating_panes" then do
          let tab_floating_children ← populate_floating_pane_children self child
            tab_floating_children
          parse_tab_template_go self fuel (i+1) (off+1) rest tab_children
            tab_floating_children eci
        else if is_a_valid_tab_property child.name then
          .error (layoutKdlError
            ("Tab property '" ++ child.name ++
              "' must be placed on the tab_template title line and not in the child braces")
            child.offset child.len)
        else
          .error (layoutKdlError ("Invalid tab_template property: " ++ child.name)
            child.offset child.len)

/-- Source lines 1404-1467. -/
def parse_tab_template_node (self : KdlLayoutParserState) (fuel : Nat)
    (kdl_node : KdlNode) :
    Except ConfigError (TiledPaneLayout × List FloatingPaneLayout) := do
  let _ ← assert_valid_tab_properties kdl_node
  let children_split_direction ← parse_split_direction kdl_node
  let res ← parse_tab_template_go self fuel 0 0 (kdl_node.childrenNodes.getD [])
    [] [] none
  pure (TiledPaneLayout.mk false none none none none children_split_direction
    res.2.2 res.1 false, res.2.1)

/-- Source lines 1468-1482. -/
def default_template (self : KdlLayoutParserState) :
    Except ConfigError (Option TiledPaneLayout) :=
  match self.default_tab_template with
  | some (template, _, _) =>
    let template := match template.external_children_index with
      | some children_index =>
        template.withChildren (listInsertAt template.children children_index
          TiledPaneLayout.default)
      | none => template
    .ok (some (template.withEci none))
  | none => .ok none

/-! ## Pane-template registries: dependency tree + topological sort
(source lines 1483-1611) -/

/-- Source lines 1518-1535 (`get_pane_template_dependencies`): collect, over
the given child nodes, every non-reserved node name (recursing through
`pane` nodes and through collected nodes); `acc` keeps set semantics. -/
def get_pane_template_dependencies_list :
    Nat → List KdlNode → List String → Except ConfigError (List String)
  | 0, _, _ => .error fuelError
  | _+1, [], acc => .ok acc
  | fuel+1, child :: rest, acc =>
    if child.name = "pane" then do
      let acc ← get_pane_template_dependencies_list fuel
        (child.childrenNodes.getD []) acc
      get_pane_template_dependencies_list fuel rest acc
    else if !is_a_reserved_word child.name then do
      let acc := if acc.contains child.name then acc else acc ++ [child.name]
      let acc ← get_pane_template_dependencies_list fuel
        (child.childrenNodes.getD []) acc
      get_pane_template_dependencies_list fuel rest acc
    else
      get_pane_template_dependencies_list fuel rest acc

/-- The collection loop of `get_pane_template_dependency_tree`. -/
def dependency_tree_go (fuel : Nat) :
    List KdlNode → List (String × List String) →
    Except ConfigError (List (String × List String))
  | [], acc => .ok acc
  | child :: rest, acc =>
    if child.name = "pane_template" then
      match kdlGetString child "name" with
      | some template_name => do
        let deps ← get_pane_template_dependencies_list fuel
          (child.childrenNodes.getD []) []
        if mapContains acc template_name then
          .error (layoutKdlError
            ("Duplicate definition of the \"" ++ template_name ++ "\" pane_template")
            child.offset child.len)
        else
          dependency_tree_go fuel rest (acc ++ [(template_name, deps)])
      | none =>
        .error (layoutKdlError "Pane templates must have a name"
          child.offset child.len)
    else
      dependency_tree_go fuel rest acc

/-- Source lines 1483-1517: the dependency graph, with dependencies
restricted to names that are themselves pane-template names. -/
def get_pane_template_dependency_tree (fuel : Nat) (kdl_children : List KdlNode) :
    Except ConfigError (List (String × List String)) := do
  let tree ← dependency_tree_go fuel kdl_children []
  let all_pane_template_names := mapKeys tree
  pure (tree.map (fun p => (p.1, p.2.filter (fun d => all_pane_template_names.contains d))))

/-- One round's removable templates: those with no remaining dependencies
(source lines 1574-1579). -/
def toposort_candidates (g : List (String × List String)) : List String :=
  (g.filter (fun p => p.2.isEmpty)).map Prod.fst

/-- Removal of a round's candidates from the graph (source lines 1587-1593). -/
def toposort_remove (cs : List String) (g : List (String × List String)) :
    List (String × List String) :=
  (g.filter (fun p => !cs.contains p.1)).map
    (fun p => (p.1, p.2.filter (fun d => !cs.contains d)))

/-- The toposort while-loop of `populate_pane_templates` (source lines
1573-1594), fuelled; a round removing zero templates from a non-empty graph
is the circular-dependency error. -/
def toposort_loop (doc_offset doc_len : Nat) :
    Nat → List (String × List String) → Except ConfigError (List String)
  | 0, g => if g.isEmpty then .ok [] else .error fuelError
  | fuel+1, g =>
    if g.isEmpty then .ok []
    else
      if (toposort_candidates g).isEmpty then
        .error (layoutKdlError "Circular dependency detected between pane templates."
          doc_offset doc_len)
      else
        (toposort_loop doc_offset doc_len fuel
            (toposort_remove (toposort_candidates g) g)).map
          (fun order => toposort_candidates g ++ order)

/-! ## Pane-template registration (source lines 739-919, 1536-1551) -/

/-- Source lines 739-767. -/
def has_only_neutral_pane_template_properties (self : KdlLayoutParserState)
    (kdl_node : KdlNode) : Except ConfigError Bool := do
  let borderless ← kdlGetBoolWithError kdl_node "borderless"
  let split_size ← parse_split_size kdl_node
  let split_direction ← kdlGetStringWithError kdl_node "split_direction"
  let has_children_nodes := has_child_nodes self kdl_node
  let height ← parse_percent_or_fixed kdl_node "height" false
  let width ← parse_percent_or_fixed kdl_node "width" false
  let x ← parse_percent_or_fixed kdl_node "x" true
  let y ← parse_percent_or_fixed kdl_node "y" true
  let has_pane_properties := borderless.isSome || split_size.isSome ||
    split_direction.isSome || has_children_nodes
  let has_floating_pane_properties := height.isSome || width.isSome ||
    x.isSome || y.isSome
  pure (!(has_pane_properties || has_floating_pane_properties))

/-- Source lines 768-835 (returns true for a floating-pane template). -/
def differentiate_pane_and_floating_pane_template (self : KdlLayoutParserState)
    (kdl_node : KdlNode) : Except ConfigError Bool := do
  let borderless ← kdlGetBoolWithError kdl_node "borderless"
  let split_size ← parse_split_size kdl_node
  let split_direction ← kdlGetStringWithError kdl_node "split_direction"
  let has_children_nodes := has_child_nodes self kdl_node
  let height ← parse_percent_or_fixed kdl_node "height" false
  let width ← parse_percent_or_fixed kdl_node "width" false
  let x ← parse_percent_or_fixed kdl_node "x" true
  let y ← parse_percent_or_fixed kdl_node "y" true
  let has_pane_properties := borderless.isSome || split_size.isSome ||
    split_direction.isSome || has_children_nodes
  let has_floating_pane_properties := height.isSome || width.isSome ||
    x.isSome || y.isSome
  if has_pane_properties && has_floating_pane_properties then
    let pane_properties :=
      (if borderless.isSome then ["borderless"] else []) ++
      (if split_size.isSome then ["split_size"] else []) ++
      (if split_direction.isSome then ["split_direction"] else []) ++
      (if has_children_nodes then ["child nodes"] else [])
    let floating_pane_properties :=
      (if height.isSome then ["height"] else []) ++
      (if width.isSome then ["width"] else []) ++
      (if x.isSome then ["x"] else []) ++
      (if y.isSome then ["y"] else [])
    Except.error (layoutKdlError
      ("A pane_template cannot have both pane (" ++
        String.intercalate ", " pane_properties ++ ") and floating pane (" ++
        String.intercalate ", " floating_pane_properties ++ ") properties")
      kdl_node.offset kdl_node.len)
  else
    pure has_floating_pane_properties

/-- Source lines 836-919. -/
def parse_pane_template_node (self : KdlLayoutParserState) (fuel : Nat)
    (kdl_node : KdlNode) : Except ConfigError KdlLayoutParserState :=
  match kdlGetString kdl_node "name" with
  | none => .error (layoutKdlError "Pane templates must have a name"
      kdl_node.offset kdl_node.len)
  | some template_name => do
  let _ ← assert_legal_node_name template_name kdl_node
  let _ ← assert_legal_template_name template_name kdl_node
  let focus ← kdlGetBoolWithError kdl_node "focus"
  let run ← parse_command_plugin_or_edit_block self kdl_node
  let is_floating ← differentiate_pane_and_floating_pane_template self kdl_node
  let can_be_either_floating_or_tiled ←
    has_only_neutral_pane_template_properties self kdl_node
  if can_be_either_floating_or_tiled then do
    let _ ← assert_valid_pane_or_floating_pane_properties kdl_node
    pure { self with pane_templates := (mapInsert self.pane_templates template_name
      (PaneOrFloatingPane.Either (TiledPaneLayout.mk false focus none none run
        SplitDirection.default none [] false), kdl_node)) }
  else if is_floating then do
    let _ ← assert_valid_floating_pane_properties kdl_node
    let height ← parse_percent_or_fixed kdl_node "height" false
    let width ← parse_percent_or_fixed kdl_node "width" false
    let x ← parse_percent_or_fixed kdl_node "x" true
    let y ← parse_percent_or_fixed kdl_node "y" true
    pure { self with pane_templates := (mapInsert self.pane_templates template_name
      (PaneOrFloatingPane.FloatingPane ⟨none, height, width, x, y, run, focus⟩,
        kdl_node)) }
  else do
    let _ ← assert_valid_pane_properties kdl_node
    let borderless ← kdlGetBoolWithError kdl_node "borderless"
    let split_size ← parse_split_size kdl_node
    let children_split_direction ← parse_split_direction kdl_node
    let trip ← match kdl_node.childrenNodes with
      | some children => parse_child_pane_nodes_for_pane self fuel children
      | none => pure (none, false, ([] : List TiledPaneLayout))
    let _ ← assert_no_mixed_children_and_properties self kdl_node
    pure { self with pane_templates := (mapInsert self.pane_templates template_name
      (PaneOrFloatingPane.Pane (TiledPaneLayout.mk (borderless.getD false) focus
        none split_size run children_split_direction trip.1 trip.2.2 trip.2.1),
        kdl_node)) }

/-- Source lines 1536-1551. -/
def parse_pane_template_by_name (self : KdlLayoutParserState) (fuel : Nat)
    (pane_template_name : String) :
    List KdlNode → Except ConfigError KdlLayoutParserState
  | [] => pure self
  | child :: rest =>
    if child.name = "pane_template" &&
        kdlGetString child "name" = some pane_template_name then do
      let self' ← parse_pane_template_node self fuel child
      parse_pane_template_by_name self' fuel pane_template_name rest
    else
      parse_pane_template_by_name self fuel pane_template_name rest

/-- The materialization loop of `populate_pane_templates` (source lines
1596-1598). -/
def parse_pane_templates_in_order (fuel : Nat) (layout_children : List KdlNode) :
    KdlLayoutParserState → List String → Except ConfigError KdlLayoutParserState
  | self, [] => pure self
  | self, nm :: rest => do
    let self' ← parse_pane_template_by_name self fuel nm layout_children
    parse_pane_templates_in_order fuel layout_children self' rest

/-- Source lines 1563-1600. -/
def populate_pane_templates (self : KdlLayoutParserState) (fuel : Nat)
    (layout_children : List KdlNode) (kdl_layout : KdlDocument) :
    Except ConfigError KdlLayoutParserState := do
  let pane_template_dependency_tree ←
    get_pane_template_dependency_tree fuel layout_children
  let pane_template_names_to_parse ← toposort_loop kdl_layout.offset kdl_layout.len
    pane_template_dependency_tree.length pane_template_dependency_tree
  parse_pane_templates_in_order fuel layout_children self pane_template_names_to_parse

/-! ## Tab-template registration (source lines 1364-1403, 1601-1611) -/

/-- Source lines 1364-1397. -/
def populate_one_tab_template (self : KdlLayoutParserState) (fuel : Nat)
    (kdl_node : KdlNode) : Except ConfigError KdlLayoutParserState := do
  let onm ← kdlGetStringWithError kdl_node "name"
  match onm with
  | none => Except.error (layoutKdlError "Tab templates must have a name"
      kdl_node.offset kdl_node.len)
  | some template_name => do
  let _ ← assert_legal_node_name template_name kdl_node
  let _ ← assert_legal_template_name template_name kdl_node
  if mapContains self.tab_templates template_name then
    Except.error (layoutKdlError
      ("Duplicate definition of the \"" ++ template_name ++ "\" tab_template")
      kdl_node.offset kdl_node.len)
  else if mapContains self.pane_templates template_name then
    Except.error (layoutKdlError
      ("There is already a pane_template with the name \"" ++ template_name ++
        "\" - can't have a tab_template with the same name")
      kdl_node.offset kdl_node.len)
  else do
    let res ← parse_tab_template_node self fuel kdl_node
    pure { self with tab_templates := (mapInsert self.tab_templates template_name
      (res.1, res.2, kdl_node)) }

/-- Source lines 1398-1403. -/
def populate_default_tab_template (self : KdlLayoutParserState) (fuel : Nat)
    (kdl_node : KdlNode) : Except ConfigError KdlLayoutParserState := do
  let res ← parse_tab_template_node self fuel kdl_node
  pure { self with default_tab_template := some (res.1, res.2, kdl_node) }

/-- Source lines 1601-1611. -/
def populate_tab_templates (self : KdlLayoutParserState) (fuel : Nat) :
    List KdlNode → Except ConfigError KdlLayoutParserState
  | [] => pure self
  | child :: rest => do
    let self' ←
      if child.name = "tab_template" then populate_one_tab_template self fuel child
      else if child.name = "default_tab_template" then
        populate_default_tab_template self fuel child
      else pure self
    populate_tab_templates self' fuel rest

/-! ## Swap layouts (source lines 1612-1734) -/

/-- Source lines 1664-1688. -/
def parse_constraint (layout_node : KdlNode) : Except ConfigError LayoutConstraint :=
  match kdlGetString layout_node "max_panes" with
  | some max_panes => .error (kdlParsingError
      ("max_panes should be a fixed number (eg. 1) and not a quoted string (\"" ++
        max_panes ++ "\")") layout_node)
  | none =>
  match kdlGetString layout_node "min_panes" with
  | some min_panes => .error (kdlParsingError
      ("min_panes should be a fixed number (eg. 1) and not a quoted string (\"" ++
        min_panes ++ "\")") layout_node)
  | none =>
  match kdlGetInt layout_node "min_panes", kdlGetInt layout_node "max_panes" with
  | some _, some _ => .error (kdlParsingError
      "cannot have more than one constraint (eg. max_panes + min_panes)'" layout_node)
  | some min_panes, none => .ok (LayoutConstraint.MinPanes (usizeOfInt min_panes))
  | none, some max_panes => .ok (LayoutConstraint.MaxPanes (usizeOfInt max_panes))
  | none, none => .ok LayoutConstraint.NoConstraint

/-- Source lines 1689-1706. -/
def populate_one_swap_tiled_layout (self : KdlLayoutParserState) (fuel : Nat)
    (layout_node : KdlNode) : Except ConfigError TiledPaneLayout := do
  let _ ← assert_valid_tab_properties layout_node
  let children_split_direction ← parse_split_direction layout_node
  let res ← match layout_node.childrenNodes with
    | some children => parse_child_pane_nodes_for_tab self fuel children true []
    | none => pure ([], [])
  pure (TiledPaneLayout.mk false none none none none children_split_direction
    none res.1 false)

/-- Source lines 1707-1717. -/
def populate_one_swap_tiled_layout_with_template (self : KdlLayoutParserState)
    (fuel : Nat) (layout_node : KdlNode) (tab_template : TiledPaneLayout)
    (tab_template_kdl_node : KdlNode) : Except ConfigError TiledPaneLayout := do
  let layout ← parse_tab_node_with_template self fuel layout_node tab_template []
    true tab_template_kdl_node
  pure layout.2.2.1

/-- Source lines 1718-1723. -/
def populate_one_swap_floating_layout (self : KdlLayoutParserState)
    (layout_node : KdlNode) : Except ConfigError (List FloatingPaneLayout) := do
  let _ ← assert_valid_tab_properties layout_node
  populate_floating_pane_children self layout_node []

/-- Source lines 1724-1734. -/
def populate_one_swap_floating_layout_with_template (self : KdlLayoutParserState)
    (fuel : Nat) (layout_node : KdlNode) (tab_template : TiledPaneLayout)
    (tab_template_floating_panes : List FloatingPaneLayout)
    (tab_template_kdl_node : KdlNode) :
    Except ConfigError (List FloatingPaneLayout) := do
  let layout ← parse_tab_node_with_template self fuel layout_node tab_template
    tab_template_floating_panes false tab_template_kdl_node
  pure layout.2.2.2

/-- The group loop of `populate_swap_tiled_layouts` (source lines 1618-1631). -/
def swap_tiled_group_go (self : KdlLayoutParserState) (fuel : Nat) :
    List KdlNode → SwapTiledLayout → Except ConfigError SwapTiledLayout
  | [], acc => pure acc
  | layout :: rest, acc =>
    if layout.name = "tab" then do
      let layout_constraint ← parse_constraint layout
      let l ← populate_one_swap_tiled_layout self fuel layout
      swap_tiled_group_go self fuel rest (constraintMapInsert acc layout_constraint l)
    else
      match mapGet self.tab_templates layout.name with
      | some (tab_template, _, tab_template_kdl_node) => do
        let layout_constraint ← parse_constraint layout
        let l ← populate_one_swap_tiled_layout_with_template self fuel layout
          tab_template tab_template_kdl_node
        swap_tiled_group_go self fuel rest (constraintMapInsert acc layout_constraint l)
      | none => swap_tiled_group_go self fuel rest acc

/-- Source lines 1612-1637. -/
def populate_swap_tiled_layouts (self : KdlLayoutParserState) (fuel : Nat) :
    List KdlNode → List SwapTiledLayout → Except ConfigError (List SwapTiledLayout)
  | [], acc => pure acc
  | child :: rest, acc =>
    if child.name = "swap_tiled_layout" then
      match child.childrenNodes with
      | some group => do
        let m ← swap_tiled_group_go self fuel group []
        populate_swap_tiled_layouts self fuel rest (acc ++ [m])
      | none => populate_swap_tiled_layouts self fuel rest acc
    else
      populate_swap_tiled_layouts self fuel rest acc

/-- The group loop of `populate_swap_floating_layouts` (source lines 1643-1657). -/
def swap_floating_group_go (self : KdlLayoutParserState) (fuel : Nat) :
    List KdlNode → SwapFloatingLayout → Except ConfigError SwapFloatingLayout
  | [], acc => pure acc
  | layout :: rest, acc =>
    if layout.name = "floating_panes" then do
      let layout_constraint ← parse_constraint layout
      let l ← populate_one_swap_floating_layout self layout
      swap_floating_group_go self fuel rest (constraintMapInsert acc layout_constraint l)
    else
      match mapGet self.tab_templates layout.name with
      | some (tab_template, tab_template_floating_panes, tab_template_kdl_node) => do
        let layout_constraint ← parse_constraint layout
        let l ← populate_one_swap_floating_layout_with_template self fuel layout
          tab_template tab_template_floating_panes tab_template_kdl_node
        swap_floating_group_go self fuel rest
          (constraintMapInsert acc layout_constraint l)
      | none => swap_floating_group_go self fuel rest acc

/-- Source lines 1638-1663. -/
def populate_swap_floating_layouts (self : KdlLayoutParserState) (fuel : Nat) :
    List KdlNode → List SwapFloatingLayout →
    Except ConfigError (List SwapFloatingLayout)
  | [], acc => pure acc
  | child :: rest, acc =>
    if child.name = "swap_floating_layout" then
      match child.childrenNodes with
      | some group => do
        let m ← swap_floating_group_go self fuel group []
        populate_swap_floating_layouts self fuel rest (acc ++ [m])
      | none => populate_swap_floating_layouts self fuel rest acc
    else
      populate_swap_floating_layouts self fuel rest acc

/-! ## Global cwd and final layout assembly (source lines 1552-1562, 1735-2006) -/

/-- Source lines 1552-1562. -/
def populate_global_cwd (self : KdlLayoutParserState) (layout_node : KdlNode) :
    Except ConfigError KdlLayoutParserState :=
  if self.global_cwd.isNone then do
    match ← kdlGetStringWithError layout_node "cwd" with
    | some global_cwd =>
      pure { self with global_cwd := some (Path.fromString global_cwd) }
    | none => pure self
  else
    pure self

/-- Source lines 1735-1754. -/
def layout_with_tabs (self : KdlLayoutParserState)
    (tabs : List (Option String × TiledPaneLayout × List FloatingPaneLayout))
    (focused_tab_index : Option Nat) (swap_tiled_layouts : List SwapTiledLayout)
    (swap_floating_layouts : List SwapFloatingLayout) :
    Except ConfigError Layout := do
  let template := (← default_template self).getD TiledPaneLayout.default
  pure ⟨tabs, some (template, []), focused_tab_index, swap_tiled_layouts,
    swap_floating_layouts⟩

/-- Source lines 1755-1783. -/
def layout_with_one_tab (self : KdlLayoutParserState)
    (panes : List TiledPaneLayout) (floating_panes : List FloatingPaneLayout)
    (swap_tiled_layouts : List SwapTiledLayout)
    (swap_floating_layouts : List SwapFloatingLayout) :
    Except ConfigError Layout := do
  let main_tab_layout := TiledPaneLayout.mk false none none none none
    SplitDirection.default none panes false
  let default_tpl ← default_template self
  let tabs := if default_tpl.isNone then []
    else [(none, main_tab_layout, floating_panes)]
  let template := default_tpl.getD main_tab_layout
  pure ⟨tabs, some (template, floating_panes), none, swap_tiled_layouts,
    swap_floating_layouts⟩

/-- Source lines 1784-1799. -/
def layout_with_one_pane (self : KdlLayoutParserState)
    (child_floating_panes : List FloatingPaneLayout)
    (swap_tiled_layouts : List SwapTiledLayout)
    (swap_floating_layouts : List SwapFloatingLayout) :
    Except ConfigError Layout := do
  let template := (← default_template self).getD TiledPaneLayout.default
  pure ⟨[], some (template, child_floating_panes), none, swap_tiled_layouts,
    swap_floating_layouts⟩

/-- Source lines 1800-1894. -/
def populate_layout_child (self : KdlLayoutParserState) (fuel : Nat)
    (child : KdlNode)
    (acc : List (Bool × Option String × TiledPaneLayout × List FloatingPaneLayout) ×
      List TiledPaneLayout × List FloatingPaneLayout) :
    Except ConfigError
      (List (Bool × Option String × TiledPaneLayout × List FloatingPaneLayout) ×
        List TiledPaneLayout × List FloatingPaneLayout) := do
  let (child_tabs, child_panes, child_floating_panes) := acc
  let child_name := child.name
  let _ ← if (child_name = "pane" || child_name = "floating_panes") &&
      !child_tabs.isEmpty then
      Except.error (layoutKdlError "Cannot have both tabs and panes in the same node"
        child.offset child.len)
    else pure ()
  if child_name = "pane" then do
    let pane_node ← parse_pane_node self fuel child
    let pane_node := match self.global_cwd with
      | some global_cwd => pane_node.add_cwd_to_layout global_cwd
      | none => pane_node
    pure (child_tabs, child_panes ++ [pane_node], child_floating_panes)
  else if child_name = "floating_panes" then do
    let child_floating_panes ← populate_floating_pane_children self child
      child_floating_panes
    pure (child_tabs, child_panes, child_floating_panes)
  else if child_name = "tab" then
    if !child_panes.isEmpty || !child_floating_panes.isEmpty then
      Except.error (layoutKdlError "Cannot have both tabs and panes in the same node"
        child.offset child.len)
    else
      match self.default_tab_template with
      | some (default_tab_template, default_tab_template_floating_panes,
          default_tab_template_kdl_node) => do
        let t ← parse_tab_node_with_template self fuel child default_tab_template
          default_tab_template_floating_panes false default_tab_template_kdl_node
        pure (child_tabs ++ [t], child_panes, child_floating_panes)
      | none => do
        let t ← parse_tab_node self fuel child
        pure (child_tabs ++ [t], child_panes, child_floating_panes)
  else
    match mapGet self.tab_templates child_name with
    | some (tab_template, tab_template_floating_panes, tab_template_kdl_node) =>
      if !child_panes.isEmpty then
        Except.error (layoutKdlError "Cannot have both tabs and panes in the same node"
          child.offset child.len)
      else do
        let t ← parse_tab_node_with_template self fuel child tab_template
          tab_template_floating_panes false tab_template_kdl_node
        pure (child_tabs ++ [t], child_panes, child_floating_panes)
    | none =>
      match mapGet self.pane_templates child_name with
      | some (pane_template, pane_template_kdl_node) =>
        if !child_tabs.isEmpty then
          Except.error (layoutKdlError
            "Cannot have both tabs and panes in the same node" child.offset child.len)
        else do
          let pane_tpl ← parse_pane_node_with_template self fuel child pane_template
            false pane_template_kdl_node
          let cwdPre ← cwdPrefixOf self none
          let pane_tpl := match cwdPre with
            | some p => pane_tpl.add_cwd_to_layout p
            | none => pane_tpl
          pure (child_tabs, child_panes ++ [pane_tpl], child_floating_panes)
      | none =>
        if !is_a_reserved_word child_name then
          Except.error (layoutKdlError ("Unknown layout node: '" ++ child_name ++ "'")
            child.offset child.len)
        else
          pure (child_tabs, child_panes, child_floating_panes)

/-- The child loop of `parse` (source lines 1966-1973). -/
def populate_layout_children (self : KdlLayoutParserState) (fuel : Nat) :
    List KdlNode →
    (List (Bool × Option String × TiledPaneLayout × List FloatingPaneLayout) ×
      List TiledPaneLayout × List FloatingPaneLayout) →
    Except ConfigError
      (List (Bool × Option String × TiledPaneLayout × List FloatingPaneLayout) ×
        List TiledPaneLayout × List FloatingPaneLayout)
  | [], acc => pure acc
  | child :: rest, acc => do
    let acc' ← populate_layout_child self fuel child acc
    populate_layout_children self fuel rest acc'

/-- The final dispatch of `parse` (source lines 1975-2005): tabs → a
multi-tab layout, else bare panes → a one-tab layout, else the
single-default-pane layout. -/
def parse_final (self : KdlLayoutParserState)
    (child_tabs : List (Bool × Option String × TiledPaneLayout × List FloatingPaneLayout))
    (child_panes : List TiledPaneLayout)
    (child_floating_panes : List FloatingPaneLayout)
    (swap_tiled_layouts : List SwapTiledLayout)
    (swap_floating_layouts : List SwapFloatingLayout)
    (kdl_layout : KdlDocument) : Except ConfigError Layout :=
  if !child_tabs.isEmpty then
    let has_more_than_one_focused_tab :=
      (child_tabs.filter (fun t => t.1)).length > 1
    if has_more_than_one_focused_tab then
      .error (layoutKdlError "Only one tab can be focused"
        kdl_layout.offset kdl_layout.len)
    else
      let focused_tab_index := child_tabs.findIdx? (fun t => t.1)
      layout_with_tabs self (child_tabs.map (fun t => t.2)) focused_tab_index
        swap_tiled_layouts swap_floating_layouts
  else if !child_panes.isEmpty then
    layout_with_one_tab self child_panes child_floating_panes swap_tiled_layouts
      swap_floating_layouts
  else
    layout_with_one_pane self child_floating_panes swap_tiled_layouts
      swap_floating_layouts

/-- Source lines 1931-2006 (`KdlLayoutParser::parse`, starting from the
already-tokenized document). -/
def parse (self : KdlLayoutParserState) (fuel : Nat) (kdl_layout : KdlDocument) :
    Except ConfigError Layout := do
  let layout_node ← match kdl_layout.nodes.find? (fun n => n.name = "layout") with
    | some n => pure n
    | none => Except.error (layoutKdlError "No layout found"
        kdl_layout.offset kdl_layout.len)
  let has_multiple_layout_nodes :=
    (kdl_layout.nodes.filter (fun n => n.name = "layout")).length > 1
  let _ ← if has_multiple_layout_nodes then
      Except.error (layoutKdlError "Only one layout node per file allowed"
        kdl_layout.offset kdl_layout.len)
    else pure ()
  match layout_node.childrenNodes with
  | some children => do
    let self ← populate_global_cwd self layout_node
    let self ← populate_pane_templates self fuel children kdl_layout
    let self ← populate_tab_templates self fuel children
    let swap_tiled_layouts ← populate_swap_tiled_layouts self fuel children []
    let swap_floating_layouts ← populate_swap_floating_layouts self fuel children []
    let acc ← populate_layout_children self fuel children ([], [], [])
    parse_final self acc.1 acc.2.1 acc.2.2 swap_tiled_layouts swap_floating_layouts
      kdl_layout
  | none =>
    parse_final self [] [] [] [] [] kdl_layout

/-! ## Concrete fixtures for the claims -/

/-- A named property entry. -/
def pe (k : String) (v : KdlValue) : KdlEntry := ⟨some k, v⟩

/-- Scheme-separator search for the URL model. -/
def hasSchemeSep : List Char → Bool
  | ':' :: '/' :: '/' :: _ => true
  | _ :: rest => hasSchemeSep rest
  | [] => false

def urlParseModel (s : String) : Except String String :=
  if hasSchemeSep s.data then .ok s
  else .error ("RelativeUrlWithoutBase: " ++ s)

/-- A fresh parser state: empty registries, no global cwd. -/
def emptyState : KdlLayoutParserState :=
  ⟨none, [], [], none, urlParseModel, fun u => .ok u⟩

/-- A pane node with a bare `width` child carrying no value. -/
def paneBareWidth : KdlNode := .mk "pane" [] (some [.mk "width" [] none 10 5]) 0 20

/-- A pane node whose `width` property carries a boolean (non-numeric,
non-string) value. -/
def paneWidthBool : KdlNode := .mk "pane" [pe "width" (.bool true)] none 0 20

/-- A pane node with a bare `size` child carrying no value. -/
def paneBareSize : KdlNode := .mk "pane" [] (some [.mk "size" [] none 10 4]) 0 20

/-- A pane node with the quoted-percent size "0%". -/
def paneSizeZeroPct : KdlNode := .mk "pane" [pe "size" (.str "0%")] none 0 20

/-- A pane node with the quoted-percent width "0%". -/
def paneWidthZeroPct : KdlNode := .mk "pane" [pe "width" (.str "0%")] none 0 20

/-- A pane node with the out-of-range quoted-percent width "150%". -/
def paneWidth150Pct : KdlNode := .mk "pane" [pe "width" (.str "150%")] none 0 20

/-- A floating-pane node with the quoted-percent x "0%". -/
def paneXZeroPct : KdlNode := .mk "pane" [pe "x" (.str "0%")] none 0 20

/-- A swap-layout group node declaring `min_panes` as the negative integer -2. -/
def swapMinNeg : KdlNode := .mk "tab" [pe "min_panes" (.int (-2))] none 0 10

/-- A swap-layout group node declaring both `min_panes` and `max_panes`. -/
def swapBoth : KdlNode :=
  .mk "tab" [pe "min_panes" (.int 2), pe "max_panes" (.int 3)] none 0 10

/-- A swap-layout group node declaring `min_panes` as the quoted string "2". -/
def swapMinStr : KdlNode := .mk "tab" [pe "min_panes" (.str "2")] none 0 10

/-- A swap-layout group node declaring `min_panes` as the unquoted integer 2. -/
def swapMinOk : KdlNode := .mk "tab" [pe "min_panes" (.int 2)] none 0 10

/-- A swap-layout group node declaring no constraint. -/
def swapNoCons : KdlNode := .mk "tab" [] none 0 10

/-- A plugin block that sets the attribute named `allow_exec_host_cmd`
(without the leading underscore the source looks up) to true. -/
def pluginWrongAttr : KdlNode :=
  .mk "plugin" [pe "allow_exec_host_cmd" (.bool true),
    pe "location" (.str "https://example.com/p.wasm")] none 5 30

/-- A plugin block whose location does not parse as a URL. -/
def pluginBadUrl : KdlNode :=
  .mk "plugin" [pe "location" (.str "zellij:tab-bar")] none 5 30

/-- A plugin block with no location. -/
def pluginNoLocation : KdlNode :=
  .mk "plugin" [pe "_allow_exec_host_cmd" (.bool true)] none 5 30

/-- A pane node with a command and a plugin child block. -/
def paneCmdPlugin : KdlNode :=
  .mk "pane" [pe "command" (.str "htop")] (some [pluginNoLocation]) 0 40

/-- A pane node declaring only a cwd. -/
def paneCwdOnly : KdlNode := .mk "pane" [pe "cwd" (.str "/tmp/x")] none 0 9

/-- A pane node declaring both a command and an edit target. -/
def paneCmdEdit : KdlNode :=
  .mk "pane" [pe "command" (.str "htop"), pe "edit" (.str "f.txt")] none 0 9

/-- A pane node declaring a command with `close_on_exit false`. -/
def paneCmdCloseFalse : KdlNode :=
  .mk "pane" [pe "command" (.str "htop"), pe "close_on_exit" (.bool false)] none 0 9

/-- A pane node declaring a command with `close_on_exit true` and
`start_suspended true`. -/
def paneCmdCloseTrue : KdlNode :=
  .mk "pane" [pe "command" (.str "htop"), pe "close_on_exit" (.bool true),
    pe "start_suspended" (.bool true)] none 0 9

/-- A pane node declaring a bare command. -/
def paneCmdBare : KdlNode := .mk "pane" [pe "command" (.str "htop")] none 0 9

/-- A pane node declaring an edit target and a cwd. -/
def paneEditCwd : KdlNode :=
  .mk "pane" [pe "edit" (.str "f.txt"), pe "cwd" (.str "/tmp/x")] none 0 9

/-- A pane node declaring only an edit target. -/
def paneEditOnly : KdlNode := .mk "pane" [pe "edit" (.str "f.txt")] none 0 9

/-- A pane node declaring nothing. -/
def paneEmpty : KdlNode := .mk "pane" [] none 0 9

/-- A pane-template node with the legal name "mytpl" and no body. -/
def paneTemplateNodeOk : KdlNode :=
  .mk "pane_template" [pe "name" (.str "mytpl")] none 0 25

/-- A tab-template node with the legal name "mytab" and one pane child. -/
def tabTemplateNodeOk : KdlNode :=
  .mk "tab_template" [pe "name" (.str "mytab")] (some [paneEmpty]) 0 25

/-- The five template-name restrictions enforced by
`assert_legal_node_name` and `assert_legal_template_name`: non-empty, no
parenthesis, no leading numeric character, no whitespace, not a reserved
word. -/
def legal_template_key (s : String) : Prop :=
  s.data.isEmpty = false ∧
  (s.data.contains ')' || s.data.contains '(') = false ∧
  (s.data.head?.map Char.isDigit).getD false = false ∧
  s.data.any Char.isWhitespace = false ∧
  is_a_reserved_word s = false

/-- A document whose layout node declares a single bare pane. -/
def docOnePane : KdlDocument := ⟨[.mk "layout" [] (some [paneEmpty]) 0 50], 0, 50⟩

/-- A bare default-tab-template node (a lone children marker). -/
def dttNode : KdlNode :=
  .mk "default_tab_template" [] (some [.mk "children" [] none 5 8]) 0 20

/-- A document with a default tab template and a single bare pane. -/
def docPaneWithDTT : KdlDocument :=
  ⟨[.mk "layout" [] (some [dttNode, paneEmpty]) 0 50], 0, 50⟩

/-- A resolved tiled pane named t0i (sibling of the marker in the template). -/
def t0Pane : TiledPaneLayout := .mk false none (some "t0") none none .horizontal none [] false

/-- A resolved pane-template shape with exactly one children marker at
index 0 and one sibling pane. -/
def tplWithMarker : TiledPaneLayout :=
  .mk false none none none none .horizontal (some 0) [t0Pane] false

/-- The defining node of the template fixture. -/
def tplNodeFix : KdlNode := .mk "pane_template" [pe "name" (.str "mytpl")] none 0 25

/-- A nested pane node named q. -/
def paneQNode : KdlNode := .mk "pane" [pe "name" (.str "q")] none 7 5

/-- A consumer node supplying k = 1 nested pane node. -/
def consumerK1 : KdlNode := .mk "mytpl" [] (some [paneQNode]) 0 40

/-- A consumer node supplying zero nested pane nodes. -/
def consumerK0 : KdlNode := .mk "mytpl" [] none 0 40

/-- The parse of the nested pane node q. -/
def qPane : TiledPaneLayout := .mk false none (some "q") none none .horizontal none [] false

/-- The sibling layout wrapping the consumer's parsed panes. -/
def wrapQ : TiledPaneLayout := .mk false none none none none .horizontal none [qPane] false

/-- Pane template A whose children reference template B. -/
def ptA : KdlNode :=
  .mk "pane_template" [pe "name" (.str "A")] (some [.mk "B" [] none 1 1]) 0 0

/-- Pane template B whose children reference template C. -/
def ptB : KdlNode :=
  .mk "pane_template" [pe "name" (.str "B")] (some [.mk "C" [] none 2 1]) 0 0

/-- Pane template C with a plain pane child. -/
def ptC : KdlNode :=
  .mk "pane_template" [pe "name" (.str "C")] (some [.mk "pane" [] none 3 1]) 0 0

/-- The acyclic template chain A → B → C. -/
def chainChildren : List KdlNode := [ptA, ptB, ptC]

/-- Pane template B whose children reference template A (for the cycle). -/
def ptB2 : KdlNode :=
  .mk "pane_template" [pe "name" (.str "B")] (some [.mk "A" [] none 2 1]) 0 0

/-- The cyclic template pair A → B → A. -/
def cycleChildren : List KdlNode := [ptA, ptB2]

/-- A parser state with the externally supplied global cwd /home/user. -/
def stateGlobalHome : KdlLayoutParserState :=
  ⟨some (Path.fromString "/home/user"), [], [], none, urlParseModel, fun u => .ok u⟩

/-- A tab node with cwd "proj" containing one bare pane. -/
def tabProjNode : KdlNode :=
  .mk "tab" [pe "cwd" (.str "proj")] (some [paneEmpty]) 0 30

/-! # Theorems settling the claims -/

/-- C6: code-bug evidence.  The spec requires every present-but-unusable
percent-or-fixed value to be a positioned error, but
`parse_percent_or_fixed`'s absence-fallback branches look up the literal
name "size" instead of `value_name`: for `width` (likewise `x`, `y`,
`height`) a bare value node or a boolean value is silently reported
absent, while the same inputs for `size` do error; additionally the
quoted "0%" is accepted for `size` (no zero check on the string branch of
`parse_split_size`) though zero is disallowed there, while "0%" is
rejected for `width` and accepted for floating-pane `x`. -/
theorem C6_percent_or_fixed_bug_evaluation :
    parse_percent_or_fixed paneBareWidth "width" false = .ok none ∧
    parse_percent_or_fixed paneWidthBool "width" false = .ok none ∧
    (∃ e, parse_split_size paneBareSize = .error e) ∧
    parse_split_size paneSizeZeroPct = .ok (some (SplitSize.percent 0)) ∧
    (∃ e, parse_percent_or_fixed paneWidthZeroPct "width" false = .error e) ∧
    (∃ e, parse_percent_or_fixed paneWidth150Pct "width" false = .error e) ∧
    parse_percent_or_fixed paneXZeroPct "x" true = .ok (some (PercentOrFixed.percent 0)) :=
  ⟨rfl, rfl, ⟨_, rfl⟩, rfl, ⟨_, rfl⟩, ⟨_, rfl⟩, rfl⟩

/-- C7: counterexample.  The claim says constraint parsing accepts only
non-negative integer values, but the negative integer `min_panes = -2` is
accepted (not rejected) and wraps around to the usize
18446744073709551614. -/
theorem C7_counterexample :
    parse_constraint swapMinNeg =
      .ok (LayoutConstraint.MinPanes 18446744073709551614) := rfl

/-- C7 (amended): a quoted-string `max_panes` or `min_panes` fails with the
"should be a fixed number" error; both constraints as integers fail; exactly
one integer constraint yields `MinPanes`/`MaxPanes` of its `as usize` cast
(negative integers are accepted and wrap around rather than being
rejected); neither present yields `NoConstraint`. -/
theorem C7_constraint_parsing (node : KdlNode) :
    (∀ s, kdlGetString node "max_panes" = some s →
      parse_constraint node = .error (kdlParsingError
        ("max_panes should be a fixed number (eg. 1) and not a quoted string (\"" ++
          s ++ "\")") node)) ∧
    (∀ s, kdlGetString node "max_panes" = none →
      kdlGetString node "min_panes" = some s →
      parse_constraint node = .error (kdlParsingError
        ("min_panes should be a fixed number (eg. 1) and not a quoted string (\"" ++
          s ++ "\")") node)) ∧
    (∀ m M, kdlGetString node "max_panes" = none →
      kdlGetString node "min_panes" = none →
      kdlGetInt node "min_panes" = some m →
      kdlGetInt node "max_panes" = some M →
      (∃ e, parse_constraint node = .error e)) ∧
    (∀ m, kdlGetString node "max_panes" = none →
      kdlGetString node "min_panes" = none →
      kdlGetInt node "min_panes" = some m →
      kdlGetInt node "max_panes" = none →
      parse_constraint node = .ok (LayoutConstraint.MinPanes (usizeOfInt m))) ∧
    (∀ M, kdlGetString node "max_panes" = none →
      kdlGetString node "min_panes" = none →
      kdlGetInt node "min_panes" = none →
      kdlGetInt node "max_panes" = some M →
      parse_constraint node = .ok (LayoutConstraint.MaxPanes (usizeOfInt M))) ∧
    (kdlGetString node "max_panes" = none →
      kdlGetString node "min_panes" = none →
      kdlGetInt node "min_panes" = none →
      kdlGetInt node "max_panes" = none →
      parse_constraint node = .ok LayoutConstraint.NoConstraint) := by
  refine ⟨?_, ?_, ?_, ?_, ?_, ?_⟩
  · intro s h
    simp only [parse_constraint, h]
  · intro s h1 h2
    simp only [parse_constraint, h1, h2]
  · intro m M h1 h2 h3 h4
    refine ⟨kdlParsingError
      "cannot have more than one constraint (eg. max_panes + min_panes)'" node, ?_⟩
    simp only [parse_constraint, h1, h2, h3, h4]
  · intro m h1 h2 h3 h4
    simp only [parse_constraint, h1, h2, h3, h4]
  · intro M h1 h2 h3 h4
    simp only [parse_constraint, h1, h2, h3, h4]
  · intro h1 h2 h3 h4
    simp only [parse_constraint, h1, h2, h3, h4]

/-- C7: witness — the amended theorem applied at concrete group nodes. -/
theorem C7_constraint_parsing_witness :
    (∃ e, parse_constraint swapBoth = .error e) ∧
    parse_constraint swapMinStr = .error (kdlParsingError
      "min_panes should be a fixed number (eg. 1) and not a quoted string (\"2\")"
      swapMinStr) ∧
    parse_constraint swapMinOk = .ok (LayoutConstraint.MinPanes 2) ∧
    parse_constraint swapNoCons = .ok LayoutConstraint.NoConstraint :=
  ⟨(C7_constraint_parsing swapBoth).2.2.1 2 3 rfl rfl rfl rfl,
    (C7_constraint_parsing swapMinStr).2.1 "2" rfl rfl,
    (C7_constraint_parsing swapMinOk).2.2.2.1 2 rfl rfl rfl rfl,
    (C7_constraint_parsing swapNoCons).2.2.2.2.2 rfl rfl rfl rfl⟩

/-- Helper: a successfully extracted string value implies the value node
lookup succeeds. -/
theorem valueNode_isSome_of_getString (n : KdlNode) (k s : String)
    (h : kdlGetStringWithError n k = .ok (some s)) :
    ∃ un, kdlPropOrChildValueNode n k = some un := by
  unfold kdlPropOrChildValueNode
  cases hp : n.propValue k with
  | some w => simp [hp]
  | none =>
    have hcv : kdlPropOrChildValue n k = n.childValue k := by
      unfold kdlPropOrChildValue; rw [hp]
    unfold kdlGetStringWithError at h
    rw [hcv] at h
    cases hc : n.childValue k with
    | none => rw [hc] at h; simp at h
    | some v =>
      have hs : (n.childValue k).isSome := by rw [hc]; rfl
      simp only [hp, Option.isSome_none, Bool.false_eq_true, if_false, hs, if_true]
      unfold KdlNode.childValue at hc
      cases hcn : n.childNamed k with
      | none => rw [hcn] at hc; simp at hc
      | some c => exact ⟨c, rfl⟩

/-- C8: counterexample.  The claim says the plugin block "carries an
allow_exec_host_cmd boolean attribute": a block explicitly setting the
attribute named `allow_exec_host_cmd` to true nevertheless parses with the
flag false, because the source looks up the underscore-prefixed name
`_allow_exec_host_cmd`. -/
theorem C8_counterexample :
    kdlGetBool pluginWrongAttr "allow_exec_host_cmd" = some true ∧
    parse_plugin_block emptyState pluginWrongAttr =
      .ok (some (Run.plugin ⟨false, "https://example.com/p.wasm"⟩)) :=
  ⟨rfl, rfl⟩

/-- C8 (amended): a plugin child block must not coexist with a non-Cwd run
action resolved from command/edit (positioned error at the plugin block); a
missing location is the "Plugins must have a location" error; an
unparseable location URL surfaces the URL parser's error text (wrapped in
"Failed to parse url: ...", positioned at the value node); and the block's
boolean attribute is literally named `_allow_exec_host_cmd` (with leading
underscore) and defaults to false when absent. -/
theorem C8_plugin_block_rules (self : KdlLayoutParserState) :
    (∀ node pb r, parse_pane_command node false = .ok (some r) →
      (match r with | Run.cwd _ => false | _ => true) = true →
      node.childNamed "plugin" = some pb →
      parse_command_plugin_or_edit_block self node = .error
        (layoutKdlError "Cannot have both a command/edit and a plugin block for a single pane"
          pb.offset pb.len)) ∧
    (∀ pb ab, kdlGetBoolWithError pb "_allow_exec_host_cmd" = .ok ab →
      kdlPropOrChildValue pb "location" = none →
      parse_plugin_block self pb = .error
        (layoutKdlError "Plugins must have a location" pb.offset pb.len)) ∧
    (∀ pb ab s e, kdlGetBoolWithError pb "_allow_exec_host_cmd" = .ok ab →
      kdlGetStringWithError pb "location" = .ok (some s) →
      self.urlParse s = .error e →
      ∃ un, kdlPropOrChildValueNode pb "location" = some un ∧
        parse_plugin_block self pb = .error
          (layoutKdlError ("Failed to parse url: " ++ e) un.offset un.len)) ∧
    (∀ pb r, kdlPropOrChildValue pb "_allow_exec_host_cmd" = none →
      parse_plugin_block self pb = .ok (some (Run.plugin r)) →
      r.allow_exec_host_cmd = false) := by
  refine ⟨?_, ?_, ?_, ?_⟩
  · intro node pb r hrun hncwd hpb
    simp only [parse_command_plugin_or_edit_block, hrun, hpb, except_bind_ok]
    cases r <;> simp_all
  · intro pb ab hab hloc
    simp only [parse_plugin_block, hab, except_bind_ok, except_bind_err,
      except_pure_eq, kdlGetStringWithError, hloc]
  · intro pb ab s e hab hloc hurl
    obtain ⟨un, hun⟩ := valueNode_isSome_of_getString pb "location" s hloc
    refine ⟨un, hun, ?_⟩
    simp only [parse_plugin_block, hab, hloc, hun, except_bind_ok, except_bind_err,
      except_pure_eq, hurl]
  · intro pb r habs h
    have hab : kdlGetBoolWithError pb "_allow_exec_host_cmd" = .ok none := by
      simp only [kdlGetBoolWithError, habs]
    simp only [parse_plugin_block, hab, except_bind_ok, except_bind_err,
      except_pure_eq] at h
    cases hloc : kdlGetStringWithError pb "location" with
    | error e => rw [hloc] at h; simp at h
    | ok o =>
      rw [hloc] at h
      cases o with
      | none => simp at h
      | some s =>
        simp only [except_bind_ok, except_bind_err, except_pure_eq] at h
        cases hun : kdlPropOrChildValueNode pb "location" with
        | none => rw [hun] at h; simp at h
        | some un =>
          rw [hun] at h
          simp only [except_bind_ok, except_bind_err, except_pure_eq] at h
          cases hurl : self.urlParse s with
          | error e => rw [hurl] at h; simp at h
          | ok u =>
            rw [hurl] at h
            simp only [except_bind_ok, except_bind_err, except_pure_eq] at h
            cases hlfu : self.locFromUrl u with
            | error e => rw [hlfu] at h; simp at h
            | ok loc =>
              rw [hlfu] at h
              simp only [except_bind_ok, except_bind_err, except_pure_eq,
                Except.ok.injEq, Option.some.injEq, Run.plugin.injEq] at h
              rw [← h]
              rfl

/-- C8: witness — the amended theorem applied at concrete plugin blocks. -/
theorem C8_plugin_block_rules_witness :
    parse_command_plugin_or_edit_block emptyState paneCmdPlugin = .error
      (layoutKdlError "Cannot have both a command/edit and a plugin block for a single pane" 5 30) ∧
    parse_plugin_block emptyState pluginNoLocation = .error
      (layoutKdlError "Plugins must have a location" 5 30) ∧
    (∃ un, kdlPropOrChildValueNode pluginBadUrl "location" = some un ∧
      parse_plugin_block emptyState pluginBadUrl = .error
        (layoutKdlError ("Failed to parse url: " ++ "RelativeUrlWithoutBase: zellij:tab-bar")
          un.offset un.len)) ∧
    RunPlugin.allow_exec_host_cmd ⟨false, "https://example.com/p.wasm"⟩ = false :=
  ⟨(C8_plugin_block_rules emptyState).1 paneCmdPlugin pluginNoLocation
      (Run.command ⟨⟨false, ["htop"]⟩, [], none, true, false⟩) rfl rfl rfl,
    (C8_plugin_block_rules emptyState).2.1 pluginNoLocation (some true) rfl rfl,
    (C8_plugin_block_rules emptyState).2.2.1 pluginBadUrl none "zellij:tab-bar"
      "RelativeUrlWithoutBase: zellij:tab-bar" rfl rfl rfl,
    (C8_plugin_block_rules emptyState).2.2.2 pluginWrongAttr
      ⟨false, "https://example.com/p.wasm"⟩ rfl rfl⟩

/-- C3: the run-action resolution table on the presence of `command`,
`edit` and `cwd`: no command, no edit, some cwd gives Cwd; some command
gives Command carrying the cwd; no command, some edit, some cwd gives
EditFile(cwd joined with edit); no command, some edit, no cwd gives
EditFile(edit); both command and edit is the "cannot have both a command
and an edit instruction" error; all three absent gives no run action.
(The rows without a command additionally assume no bare
args/close_on_exit/start_suspended, which in this non-template context
would error before the table is reached.) -/
theorem C3_run_action_resolution_table (node : KdlNode) :
    (∀ c, kdlGetStringWithError node "command" = .ok none →
      kdlGetStringWithError node "edit" = .ok none →
      kdlGetStringWithError node "cwd" = .ok (some c) →
      parse_args node = .ok none →
      kdlGetBoolWithError node "close_on_exit" = .ok none →
      kdlGetBoolWithError node "start_suspended" = .ok none →
      parse_pane_command node false = .ok (some (Run.cwd (Path.fromString c)))) ∧
    (∀ cm ocwd oargs oco oss,
      kdlGetStringWithError node "command" = .ok (some cm) →
      kdlGetStringWithError node "edit" = .ok none →
      kdlGetStringWithError node "cwd" = .ok ocwd →
      parse_args node = .ok oargs →
      kdlGetBoolWithError node "close_on_exit" = .ok oco →
      kdlGetBoolWithError node "start_suspended" = .ok oss →
      parse_pane_command node false = .ok (some (Run.command
        ⟨Path.fromString cm, oargs.getD [], ocwd.map Path.fromString,
          (oco.map (fun c => !c)).getD true, oss.getD false⟩))) ∧
    (∀ e c, kdlGetStringWithError node "command" = .ok none →
      kdlGetStringWithError node "edit" = .ok (some e) →
      kdlGetStringWithError node "cwd" = .ok (some c) →
      parse_args node = .ok none →
      kdlGetBoolWithError node "close_on_exit" = .ok none →
      kdlGetBoolWithError node "start_suspended" = .ok none →
      parse_pane_command node false = .ok (some (Run.editFile
        ((Path.fromString c).join (Path.fromString e)) none))) ∧
    (∀ e, kdlGetStringWithError node "command" = .ok none →
      kdlGetStringWithError node "edit" = .ok (some e) →
      kdlGetStringWithError node "cwd" = .ok none →
      parse_args node = .ok none →
      kdlGetBoolWithError node "close_on_exit" = .ok none →
      kdlGetBoolWithError node "start_suspended" = .ok none →
      parse_pane_command node false = .ok (some (Run.editFile
        (Path.fromString e) none))) ∧
    (∀ cm e ocwd oargs oco oss,
      kdlGetStringWithError node "command" = .ok (some cm) →
      kdlGetStringWithError node "edit" = .ok (some e) →
      kdlGetStringWithError node "cwd" = .ok ocwd →
      parse_args node = .ok oargs →
      kdlGetBoolWithError node "close_on_exit" = .ok oco →
      kdlGetBoolWithError node "start_suspended" = .ok oss →
      parse_pane_command node false = .error (layoutKdlError
        "cannot have both a command and an edit instruction for the same pane"
        node.offset node.len)) ∧
    (kdlGetStringWithError node "command" = .ok none →
      kdlGetStringWithError node "edit" = .ok none →
      kdlGetStringWithError node "cwd" = .ok none →
      parse_args node = .ok none →
      kdlGetBoolWithError node "close_on_exit" = .ok none →
      kdlGetBoolWithError node "start_suspended" = .ok none →
      parse_pane_command node false = .ok none) := by
  refine ⟨?_, ?_, ?_, ?_, ?_, ?_⟩
  · intro c h1 h2 h3 h4 h5 h6
    simp [parse_pane_command, parse_cwd, assert_no_bare_attributes_in_pane_node,
      h1, h2, h3, h4, h5, h6]
  · intro cm ocwd oargs oco oss h1 h2 h3 h4 h5 h6
    simp [parse_pane_command, parse_cwd, assert_no_bare_attributes_in_pane_node,
      h1, h2, h3, h4, h5, h6]
  · intro e c h1 h2 h3 h4 h5 h6
    simp [parse_pane_command, parse_cwd, assert_no_bare_attributes_in_pane_node,
      h1, h2, h3, h4, h5, h6]
  · intro e h1 h2 h3 h4 h5 h6
    simp [parse_pane_command, parse_cwd, assert_no_bare_attributes_in_pane_node,
      h1, h2, h3, h4, h5, h6]
  · intro cm e ocwd oargs oco oss h1 h2 h3 h4 h5 h6
    simp [parse_pane_command, parse_cwd, assert_no_bare_attributes_in_pane_node,
      h1, h2, h3, h4, h5, h6]
  · intro h1 h2 h3 h4 h5 h6
    simp [parse_pane_command, parse_cwd, assert_no_bare_attributes_in_pane_node,
      h1, h2, h3, h4, h5, h6]

/-- C3: witness — the table applied at one concrete node per row. -/
theorem C3_run_action_resolution_table_witness :
    parse_pane_command paneCwdOnly false =
      .ok (some (Run.cwd (Path.fromString "/tmp/x"))) ∧
    parse_pane_command paneCmdCloseFalse false = .ok (some (Run.command
      ⟨Path.fromString "htop", [], none, true, false⟩)) ∧
    parse_pane_command paneEditCwd false = .ok (some (Run.editFile
      ((Path.fromString "/tmp/x").join (Path.fromString "f.txt")) none)) ∧
    parse_pane_command paneEditOnly false = .ok (some (Run.editFile
      (Path.fromString "f.txt") none)) ∧
    parse_pane_command paneCmdEdit false = .error (layoutKdlError
      "cannot have both a command and an edit instruction for the same pane" 0 9) ∧
    parse_pane_command paneEmpty false = .ok none :=
  ⟨(C3_run_action_resolution_table paneCwdOnly).1 "/tmp/x" rfl rfl rfl rfl rfl rfl,
    (C3_run_action_resolution_table paneCmdCloseFalse).2.1 "htop" none none
      (some false) none rfl rfl rfl rfl rfl rfl,
    (C3_run_action_resolution_table paneEditCwd).2.2.1 "f.txt" "/tmp/x"
      rfl rfl rfl rfl rfl rfl,
    (C3_run_action_resolution_table paneEditOnly).2.2.2.1 "f.txt"
      rfl rfl rfl rfl rfl rfl,
    (C3_run_action_resolution_table paneCmdEdit).2.2.2.2.1 "htop" "f.txt" none
      none none none rfl rfl rfl rfl rfl rfl,
    (C3_run_action_resolution_table paneEmpty).2.2.2.2.2 rfl rfl rfl rfl rfl rfl⟩

/-- C9: whenever a node resolves to a Command run action, `hold_on_close`
is true unless `close_on_exit` is explicitly true (in particular also when
it is explicitly false or absent), and `hold_on_start` is false unless
`start_suspended` is explicitly true. -/
theorem C9_hold_flags (node : KdlNode) (co ss : Option Bool) (c : RunCommand)
    (hco : kdlGetBoolWithError node "close_on_exit" = .ok co)
    (hss : kdlGetBoolWithError node "start_suspended" = .ok ss)
    (hrun : parse_pane_command node false = .ok (some (Run.command c))) :
    ((co = some true → c.hold_on_close = false) ∧
      (co ≠ some true → c.hold_on_close = true)) ∧
    ((ss = some true → c.hold_on_start = true) ∧
      (ss ≠ some true → c.hold_on_start = false)) := by
  simp only [parse_pane_command, parse_cwd, hco, hss, except_map_ok,
    except_bind_ok, except_pure_eq] at hrun
  cases hcmd : kdlGetStringWithError node "command" with
  | error e => rw [hcmd] at hrun; simp at hrun
  | ok ocmd =>
    rw [hcmd] at hrun
    simp only [except_map_ok, except_bind_ok] at hrun
    cases hedit : kdlGetStringWithError node "edit" with
    | error e => rw [hedit] at hrun; simp at hrun
    | ok oedit =>
      rw [hedit] at hrun
      simp only [except_map_ok, except_bind_ok] at hrun
      cases hcwd : kdlGetStringWithError node "cwd" with
      | error e => rw [hcwd] at hrun; simp at hrun
      | ok ocwdm =>
        rw [hcwd] at hrun
        simp only [except_map_ok, except_bind_ok] at hrun
        cases hargs : parse_args node with
        | error e => rw [hargs] at hrun; simp at hrun
        | ok oargs =>
          rw [hargs] at hrun
          simp only [except_bind_ok, Bool.not_false, if_true] at hrun
          cases hassert : assert_no_bare_attributes_in_pane_node
              (ocmd.map Path.fromString) oargs co ss node with
          | error e => rw [hassert] at hrun; simp at hrun
          | ok u =>
            rw [hassert] at hrun
            simp only [except_bind_ok, except_pure_eq] at hrun
            cases ocmd with
            | none =>
              cases oedit <;> cases ocwdm <;>
                simp only [Option.map_none', Option.map_some'] at hrun <;>
                simp at hrun
            | some cm =>
              cases oedit with
              | some e =>
                cases ocwdm <;>
                  simp only [Option.map_none', Option.map_some'] at hrun <;>
                  simp at hrun
              | none =>
                cases ocwdm <;>
                  simp only [Option.map_none', Option.map_some', Except.ok.injEq,
                    Option.some.injEq, Run.command.injEq] at hrun <;>
                  subst hrun <;>
                  refine ⟨⟨?_, ?_⟩, ⟨?_, ?_⟩⟩ <;> intro hcase <;>
                  first
                    | (subst hcase; rfl)
                    | (cases co with
                        | none => rfl
                        | some b => cases b with
                          | true => exact absurd rfl hcase
                          | false => rfl)
                    | (cases ss with
                        | none => rfl
                        | some b => cases b with
                          | true => exact absurd rfl hcase
                          | false => rfl)

/-- C9: witness — the hold-flag defaults at concrete command panes
(close_on_exit explicitly false keeps hold_on_close true; close_on_exit
true with start_suspended true flips both flags). -/
theorem C9_hold_flags_witness :
    ((some false : Option Bool) ≠ some true →
      RunCommand.hold_on_close ⟨Path.fromString "htop", [], none, true, false⟩ = true) ∧
    ((some true : Option Bool) = some true →
      RunCommand.hold_on_close ⟨Path.fromString "htop", [], none, false, true⟩ = false) :=
  ⟨fun h => ((C9_hold_flags paneCmdCloseFalse (some false) none
      ⟨Path.fromString "htop", [], none, true, false⟩ rfl rfl rfl).1.2 h),
    fun h => ((C9_hold_flags paneCmdCloseTrue (some true) (some true)
      ⟨Path.fromString "htop", [], none, false, true⟩ rfl rfl rfl).1.1 h)⟩

/-- C5: working-directory propagation.  An externally supplied global cwd
takes precedence over the layout's top-level cwd property (the layout's
own cwd is only read when none was supplied); the effective tab prefix is
global joined with the tab's cwd when both are present, whichever is
present otherwise, and none when neither is; and concretely, global cwd
/home/user plus tab cwd proj plus a pane with no explicit cwd resolves the
pane's effective directory to /home/user/proj (the prefix is pushed onto
every descendant pane of the parsed tab). -/
theorem C5_cwd_propagation :
    (∀ self node g, self.global_cwd = some g →
      populate_global_cwd self node = .ok self) ∧
    (∀ self node c, self.global_cwd = none →
      kdlGetStringWithError node "cwd" = .ok (some c) →
      populate_global_cwd self node =
        .ok { self with global_cwd := some (Path.fromString c) }) ∧
    (∀ self g t, self.global_cwd = some g →
      cwdPrefixOf self (some t) = .ok (some (g.join t))) ∧
    (∀ self t, self.global_cwd = none →
      cwdPrefixOf self (some t) = .ok (some t)) ∧
    (∀ self g, self.global_cwd = some g →
      cwdPrefixOf self none = .ok (some g)) ∧
    (∀ self, self.global_cwd = none →
      cwdPrefixOf self none = .ok none) ∧
    (parse_tab_node stateGlobalHome 10 tabProjNode).map
      (fun r => (r.2.2.1.run, r.2.2.1.children.map TiledPaneLayout.run)) =
      .ok (some (.cwd (Path.fromString "/home/user/proj")),
        [some (.cwd (Path.fromString "/home/user/proj"))]) := by
  refine ⟨?_, ?_, ?_, ?_, ?_, ?_, rfl⟩
  · intro self node g h
    simp only [populate_global_cwd, h, Option.isSome_some, Option.isNone_some,
      Bool.false_eq_true, if_false, except_pure_eq]
  · intro self node c h hc
    simp only [populate_global_cwd, h, Option.isNone_none, if_true, hc,
      except_bind_ok, except_pure_eq]
  · intro self g t h
    simp only [cwdPrefixOf, h]
  · intro self t h
    simp only [cwdPrefixOf, h]
  · intro self g h
    simp only [cwdPrefixOf, h]
  · intro self h
    simp only [cwdPrefixOf, h]

/-- C5: witness — the precedence and table parts applied at concrete
states. -/
theorem C5_cwd_propagation_witness :
    populate_global_cwd stateGlobalHome tabProjNode = .ok stateGlobalHome ∧
    populate_global_cwd emptyState paneCwdOnly =
      .ok { emptyState with global_cwd := some (Path.fromString "/tmp/x") } ∧
    cwdPrefixOf stateGlobalHome (some (Path.fromString "proj")) =
      .ok (some ((Path.fromString "/home/user").join (Path.fromString "proj"))) ∧
    cwdPrefixOf emptyState none = .ok none :=
  ⟨C5_cwd_propagation.1 stateGlobalHome tabProjNode (Path.fromString "/home/user") rfl,
    C5_cwd_propagation.2.1 emptyState paneCwdOnly "/tmp/x" rfl rfl,
    C5_cwd_propagation.2.2.1 stateGlobalHome (Path.fromString "/home/user")
      (Path.fromString "proj") rfl,
    C5_cwd_propagation.2.2.2.2.2.1 emptyState rfl⟩

/-- Helper: inversion of a successful Except bind. -/
theorem except_bind_ok_inv {ε α β : Type} {e : Except ε α} {f : α → Except ε β}
    {b : β} (h : (e >>= f) = .ok b) : ∃ a, e = .ok a ∧ f a = .ok b := by
  cases e with
  | error er => simp at h
  | ok a => exact ⟨a, rfl, h⟩

/-- Helper: passing both legality asserts establishes the five name
restrictions. -/
theorem legal_of_asserts (nm : String) (node node' : KdlNode) (u v : Unit)
    (h1 : assert_legal_node_name nm node = .ok u)
    (h2 : assert_legal_template_name nm node' = .ok v) :
    legal_template_key nm := by
  unfold assert_legal_node_name at h1
  unfold assert_legal_template_name at h2
  split at h1
  · exact absurd h1 (by simp)
  next hws =>
    split at h1
    · exact absurd h1 (by simp)
    next hres =>
      split at h2
      · exact absurd h2 (by simp)
      next hemp =>
        split at h2
        · exact absurd h2 (by simp)
        next hpar =>
          split at h2
          · exact absurd h2 (by simp)
          next hnum =>
            exact ⟨by simpa using hemp, by simpa using hpar, by simpa using hnum,
              by simpa using hws, by simpa using hres⟩

/-- Helper: keys after a map insertion are the inserted key or old keys. -/
theorem mem_keys_mapInsert {α : Type} (m : List (String × α)) (k : String) (v : α) :
    ∀ k', k' ∈ mapKeys (mapInsert m k v) → k' = k ∨ k' ∈ mapKeys m := by
  induction m with
  | nil =>
    intro k' h
    simp [mapInsert, mapKeys] at h
    exact Or.inl h
  | cons p rest ih =>
    intro k' h
    unfold mapInsert at h
    by_cases hpk : p.1 = k
    · simp only [hpk, if_true, mapKeys, List.map_cons, List.mem_cons] at h
      rcases h with h | h
      · exact Or.inl h
      · exact Or.inr (by simp [mapKeys, List.mem_cons]; exact Or.inr (by simpa [mapKeys] using h))
    · simp only [hpk, if_false, mapKeys, List.map_cons, List.mem_cons] at h
      rcases h with h | h
      · exact Or.inr (by simp [mapKeys, h])
      · rcases ih k' (by simpa [mapKeys] using h) with h' | h'
        · exact Or.inl h'
        · exact Or.inr (by simp [mapKeys]; exact Or.inr (by simpa [mapKeys] using h'))

/-- C10: every key newly present in a template registry after a successful
registration satisfies all five name restrictions (non-empty, no
parenthesis, no leading numeric character, no whitespace, not reserved),
because both `parse_pane_template_node` and `populate_one_tab_template`
run `assert_legal_node_name` and `assert_legal_template_name` before
inserting; each registration also leaves the other registry untouched. -/
theorem C10_template_name_validation (self : KdlLayoutParserState) (fuel : Nat)
    (node : KdlNode) (self' : KdlLayoutParserState) :
    (parse_pane_template_node self fuel node = .ok self' →
      self'.tab_templates = self.tab_templates ∧
      ∀ k, k ∈ mapKeys self'.pane_templates →
        k ∈ mapKeys self.pane_templates ∨ legal_template_key k) ∧
    (populate_one_tab_template self fuel node = .ok self' →
      self'.pane_templates = self.pane_templates ∧
      ∀ k, k ∈ mapKeys self'.tab_templates →
        k ∈ mapKeys self.tab_templates ∨ legal_template_key k) := by
  constructor
  · intro h
    unfold parse_pane_template_node at h
    cases hname : kdlGetString node "name" with
    | none => rw [hname] at h; simp at h
    | some nm =>
    rw [hname] at h
    obtain ⟨u1, ha1, h⟩ := except_bind_ok_inv h
    obtain ⟨u2, ha2, h⟩ := except_bind_ok_inv h
    obtain ⟨focus, hfoc, h⟩ := except_bind_ok_inv h
    obtain ⟨run, hrun, h⟩ := except_bind_ok_inv h
    obtain ⟨isf, hisf, h⟩ := except_bind_ok_inv h
    obtain ⟨iseither, hei, h⟩ := except_bind_ok_inv h
    have hleg : legal_template_key nm := legal_of_asserts nm node node u1 u2 ha1 ha2
    cases iseither with
    | true =>
      simp only [if_true] at h
      obtain ⟨u3, hv, h⟩ := except_bind_ok_inv h
      simp only [except_pure_eq, Except.ok.injEq] at h
      subst h
      exact ⟨rfl, fun k hk => (mem_keys_mapInsert _ nm _ k hk).imp
        (fun he => he ▸ hleg) id |>.symm.imp (fun he => he) (fun he => he)⟩
    | false =>
      simp only [Bool.false_eq_true, if_false] at h
      cases isf with
      | true =>
        simp only [if_true] at h
        obtain ⟨u3, hv, h⟩ := except_bind_ok_inv h
        obtain ⟨hh, _, h⟩ := except_bind_ok_inv h
        obtain ⟨hw, _, h⟩ := except_bind_ok_inv h
        obtain ⟨hx, _, h⟩ := except_bind_ok_inv h
        obtain ⟨hy, _, h⟩ := except_bind_ok_inv h
        simp only [except_pure_eq, Except.ok.injEq] at h
        subst h
        refine ⟨rfl, fun k hk => ?_⟩
        rcases mem_keys_mapInsert _ nm _ k hk with he | he
        · exact Or.inr (he ▸ hleg)
        · exact Or.inl he
      | false =>
        simp only [Bool.false_eq_true, if_false] at h
        obtain ⟨u3, hv, h⟩ := except_bind_ok_inv h
        obtain ⟨hb, _, h⟩ := except_bind_ok_inv h
        obtain ⟨hs, _, h⟩ := except_bind_ok_inv h
        obtain ⟨hd, _, h⟩ := except_bind_ok_inv h
        cases hch : node.childrenNodes with
        | some children =>
          rw [hch] at h
          obtain ⟨trip, _, h⟩ := except_bind_ok_inv h
          obtain ⟨u4, _, h⟩ := except_bind_ok_inv h
          simp only [except_pure_eq, Except.ok.injEq] at h
          subst h
          refine ⟨rfl, fun k hk => ?_⟩
          rcases mem_keys_mapInsert _ nm _ k hk with he | he
          · exact Or.inr (he ▸ hleg)
          · exact Or.inl he
        | none =>
          rw [hch] at h
          simp only [except_pure_eq, except_bind_ok] at h
          obtain ⟨u4, _, h⟩ := except_bind_ok_inv h
          simp only [except_pure_eq, Except.ok.injEq] at h
          subst h
          refine ⟨rfl, fun k hk => ?_⟩
          rcases mem_keys_mapInsert _ nm _ k hk with he | he
          · exact Or.inr (he ▸ hleg)
          · exact Or.inl he
  · intro h
    unfold populate_one_tab_template at h
    obtain ⟨onm, hgs, h⟩ := except_bind_ok_inv h
    cases onm with
    | none => simp at h
    | some nm =>
    obtain ⟨u1, ha1, h⟩ := except_bind_ok_inv h
    obtain ⟨u2, ha2, h⟩ := except_bind_ok_inv h
    have hleg : legal_template_key nm := legal_of_asserts nm node node u1 u2 ha1 ha2
    split at h
    · exact absurd h (by simp)
    · split at h
      · exact absurd h (by simp)
      · obtain ⟨res, hres, h⟩ := except_bind_ok_inv h
        simp only [except_pure_eq, Except.ok.injEq] at h
        subst h
        refine ⟨rfl, fun k hk => ?_⟩
        rcases mem_keys_mapInsert _ nm _ k hk with he | he
        · exact Or.inr (he ▸ hleg)
        · exact Or.inl he

/-- C10: witness — registering the legal names "mytpl" / "mytab" into the
empty state; both names satisfy the five restrictions. -/
theorem C10_template_name_validation_witness :
    ("mytpl" ∈ mapKeys emptyState.pane_templates ∨ legal_template_key "mytpl") ∧
    ("mytab" ∈ mapKeys emptyState.tab_templates ∨ legal_template_key "mytab") :=
  ⟨((C10_template_name_validation emptyState 10 paneTemplateNodeOk
      { emptyState with pane_templates := [("mytpl",
        (.Either (TiledPaneLayout.mk false none none none none
          SplitDirection.default none [] false), paneTemplateNodeOk))] }).1 rfl).2
      "mytpl" (by simp [mapKeys]),
    ((C10_template_name_validation emptyState 10 tabTemplateNodeOk
      { emptyState with tab_templates := [("mytab",
        (TiledPaneLayout.mk false none none none none SplitDirection.default
          none [TiledPaneLayout.default] false, [], tabTemplateNodeOk))] }).2 rfl).2
      "mytab" (by simp [mapKeys])⟩

/-! ### Toposort lemmas (for C2) -/

theorem list_contains_iff {l : List String} {a : String} :
    l.contains a = true ↔ a ∈ l := List.elem_iff

theorem indexOf_append_left {l1 l2 : List String} {a : String} (h : a ∈ l1) :
    (l1 ++ l2).indexOf a = l1.indexOf a := by
  induction l1 with
  | nil => simp at h
  | cons b t ih =>
    by_cases hba : b = a
    · simp [List.indexOf_cons, hba]
    · rcases List.mem_cons.mp h with h' | h'
      · exact absurd h'.symm hba
      · simp [List.indexOf_cons, beq_iff_eq, hba, ih h']

theorem indexOf_append_right {l1 l2 : List String} {a : String} (h : a ∉ l1) :
    (l1 ++ l2).indexOf a = l1.length + l2.indexOf a := by
  induction l1 with
  | nil => simp
  | cons b t ih =>
    have hba : ¬ b = a := fun he => h (he ▸ List.mem_cons_self b t)
    have h' : a ∉ t := fun hm => h (List.mem_cons_of_mem b hm)
    simp [List.indexOf_cons, beq_iff_eq, hba, ih h']
    omega

theorem nodup_keys_unique {α : Type} {g : List (String × α)}
    (h : (mapKeys g).Nodup) {p q : String × α} (hp : p ∈ g) (hq : q ∈ g)
    (he : p.1 = q.1) : p = q := by
  induction g with
  | nil => simp at hp
  | cons r t ih =>
    simp only [mapKeys, List.map_cons, List.nodup_cons] at h
    rcases List.mem_cons.mp hp with hp' | hp' <;> rcases List.mem_cons.mp hq with hq' | hq'
    · rw [hp', hq']
    · exfalso
      apply h.1
      have : q.1 ∈ List.map Prod.fst t := List.mem_map_of_mem Prod.fst hq'
      rw [← he, hp'] at this
      exact this
    · exfalso
      apply h.1
      have : p.1 ∈ List.map Prod.fst t := List.mem_map_of_mem Prod.fst hp'
      rw [he, hq'] at this
      exact this
    · exact ih h.2 hp' hq'

theorem candidates_mem {g : List (String × List String)} {x : String}
    (h : x ∈ toposort_candidates g) : ∃ q, q ∈ g ∧ q.1 = x ∧ q.2 = [] := by
  unfold toposort_candidates at h
  rcases List.mem_map.mp h with ⟨q, hq, hqx⟩
  rcases List.mem_filter.mp hq with ⟨hqg, hqe⟩
  exact ⟨q, hqg, hqx, List.isEmpty_iff.mp hqe⟩

theorem keys_remove_sublist (cs : List String) (g : List (String × List String)) :
    (mapKeys (toposort_remove cs g)).Sublist (mapKeys g) := by
  unfold toposort_remove mapKeys
  rw [List.map_map]
  exact ((List.filter_sublist g).map Prod.fst)

theorem mem_toposort_remove {cs : List String} {g : List (String × List String)}
    {p : String × List String} (hp : p ∈ g) (hc : p.1 ∉ cs) :
    (p.1, p.2.filter (fun d => !cs.contains d)) ∈ toposort_remove cs g := by
  unfold toposort_remove
  apply List.mem_map_of_mem
  apply List.mem_filter.mpr
  refine ⟨hp, ?_⟩
  simp only [Bool.not_eq_true']
  exact (Bool.not_eq_true _).mp (fun hcc => hc (list_contains_iff.mp hcc))

theorem toposort_remove_length_lt {g : List (String × List String)}
    (h : ¬ (toposort_candidates g).isEmpty = true) :
    (toposort_remove (toposort_candidates g) g).length < g.length := by
  unfold toposort_remove
  rw [List.length_map]
  apply List.length_filter_lt_length_iff_exists.mpr
  have hne : toposort_candidates g ≠ [] := fun he => h (by simp [he])
  obtain ⟨x, hx⟩ := List.exists_mem_of_ne_nil _ hne
  obtain ⟨q, hqg, hq1, _⟩ := candidates_mem hx
  refine ⟨q, hqg, ?_⟩
  simp only [Bool.not_eq_true', Bool.not_eq_false]
  exact list_contains_iff.mpr (hq1 ▸ hx)

/-- Helper: a successful toposort lists every graph key, and lists every
key's surviving dependencies strictly before it (Kahn soundness). -/
theorem toposort_loop_sound (off len : Nat) :
    ∀ fuel g order, (mapKeys g).Nodup →
      toposort_loop off len fuel g = .ok order →
      (∀ p, p ∈ g → p.1 ∈ order) ∧
      (∀ p d, p ∈ g → d ∈ p.2 → order.indexOf d < order.indexOf p.1) := by
  intro fuel
  induction fuel with
  | zero =>
    intro g order hnd h
    unfold toposort_loop at h
    split at h
    · next hg =>
      have : g = [] := List.isEmpty_iff.mp hg
      subst this
      refine ⟨fun p hp => absurd hp (by simp), fun p d hp _ => absurd hp (by simp)⟩
    · simp at h
  | succ fuel ih =>
    intro g order hnd h
    unfold toposort_loop at h
    split at h
    · next hg =>
      have : g = [] := List.isEmpty_iff.mp hg
      subst this
      refine ⟨fun p hp => absurd hp (by simp), fun p d hp _ => absurd hp (by simp)⟩
    · next hg =>
      split at h
      · simp at h
      · next hcs =>
        cases hrec : toposort_loop off len fuel
            (toposort_remove (toposort_candidates g) g) with
        | error e => rw [hrec] at h; simp at h
        | ok order' =>
          rw [hrec] at h
          simp only [except_map_ok, Except.ok.injEq] at h
          subst h
          have hnd' : (mapKeys (toposort_remove (toposort_candidates g) g)).Nodup :=
            (keys_remove_sublist _ g).nodup hnd
          obtain ⟨ih1, ih2⟩ := ih _ _ hnd' hrec
          have hmem1 : ∀ p, p ∈ g → p.1 ∈ toposort_candidates g ++ order' := by
            intro p hp
            by_cases hpc : p.1 ∈ toposort_candidates g
            · exact List.mem_append_left _ hpc
            · exact List.mem_append_right _
                (ih1 (p.1, p.2.filter (fun x => !(toposort_candidates g).contains x))
                  (mem_toposort_remove hp hpc))
          refine ⟨hmem1, ?_⟩
          intro p d hp hd
          by_cases hpc : p.1 ∈ toposort_candidates g
          · exfalso
            obtain ⟨q, hqg, hq1, hq2⟩ := candidates_mem hpc
            have : p = q := nodup_keys_unique hnd hp hqg (by rw [hq1])
            rw [this, hq2] at hd
            exact absurd hd (by simp)
          · by_cases hdc : d ∈ toposort_candidates g
            · have hpo : p.1 ∈ order' :=
                ih1 (p.1, p.2.filter (fun x => !(toposort_candidates g).contains x))
                  (mem_toposort_remove hp hpc)
              rw [indexOf_append_left hdc, indexOf_append_right hpc]
              calc (toposort_candidates g).indexOf d
                  < (toposort_candidates g).length := List.indexOf_lt_length.mpr hdc
                _ ≤ (toposort_candidates g).length + order'.indexOf p.1 :=
                    Nat.le_add_right _ _
            · have hd' : d ∈ (p.2.filter (fun x => !(toposort_candidates g).contains x)) := by
                apply List.mem_filter.mpr
                refine ⟨hd, ?_⟩
                simp only [Bool.not_eq_true']
                exact (Bool.not_eq_true _).mp (fun hcc => hdc (list_contains_iff.mp hcc))
              have hlt : order'.indexOf d < order'.indexOf p.1 :=
                ih2 (p.1, p.2.filter (fun x => !(toposort_candidates g).contains x))
                  d (mem_toposort_remove hp hpc) hd'
              rw [indexOf_append_right hdc, indexOf_append_right hpc]
              omega

theorem toposort_loop_total (off len : Nat) :
    ∀ fuel g, g.length ≤ fuel →
      (∃ order, toposort_loop off len fuel g = .ok order) ∨
      toposort_loop off len fuel g = .error (layoutKdlError
        "Circular dependency detected between pane templates." off len) := by
  intro fuel
  induction fuel with
  | zero =>
    intro g hg
    have : g = [] := List.length_eq_zero.mp (Nat.le_zero.mp hg)
    subst this
    exact Or.inl ⟨[], rfl⟩
  | succ fuel ih =>
    intro g hg
    unfold toposort_loop
    by_cases hge : g.isEmpty
    · rw [if_pos hge]
      exact Or.inl ⟨[], rfl⟩
    · rw [if_neg hge]
      by_cases hce : (toposort_candidates g).isEmpty
      · rw [if_pos hce]
        exact Or.inr rfl
      · rw [if_neg hce]
        have hlt := toposort_remove_length_lt hce
        have hle : (toposort_remove (toposort_candidates g) g).length ≤ fuel := by
          omega
        rcases ih _ hle with ⟨order, ho⟩ | ho
        · rw [ho]
          exact Or.inl ⟨_, rfl⟩
        · rw [ho]
          exact Or.inr rfl

/-- C2: pane-template population is a Kahn-style topological sort.  For
the acyclic chain A → B → C, the dependency tree built from the KDL nodes
toposorts to C before B before A and population materializes the
registries in exactly that order; for the cycle A → B → A population
fails with the circular-dependency error; generally, a round that removes
zero templates from a non-empty graph is exactly the circular-dependency
error, the fuelled loop never exhausts its fuel (with fuel = graph size
it always returns an order or the circular error, so it cannot loop
forever), and a returned order lists every template after all of its
remaining dependencies (so each template's dependencies are already
registered when it is parsed). -/
theorem C2_pane_template_toposort :
    get_pane_template_dependency_tree 10 chainChildren =
      .ok [("A", ["B"]), ("B", ["C"]), ("C", [])] ∧
    toposort_loop 0 0 3 [("A", ["B"]), ("B", ["C"]), ("C", [])] =
      .ok ["C", "B", "A"] ∧
    (populate_pane_templates emptyState 10 chainChildren ⟨chainChildren, 0, 100⟩).map
      (fun s => mapKeys s.pane_templates) = .ok ["C", "B", "A"] ∧
    get_pane_template_dependency_tree 10 cycleChildren =
      .ok [("A", ["B"]), ("B", ["A"])] ∧
    populate_pane_templates emptyState 10 cycleChildren ⟨cycleChildren, 0, 100⟩ =
      .error (layoutKdlError "Circular dependency detected between pane templates."
        0 100) ∧
    (∀ off len fuel g, g ≠ [] → toposort_candidates g = [] →
      toposort_loop off len (fuel+1) g = .error (layoutKdlError
        "Circular dependency detected between pane templates." off len)) ∧
    (∀ off len fuel g, g.length ≤ fuel →
      (∃ order, toposort_loop off len fuel g = .ok order) ∨
      toposort_loop off len fuel g = .error (layoutKdlError
        "Circular dependency detected between pane templates." off len)) ∧
    (∀ off len fuel g order, (mapKeys g).Nodup →
      toposort_loop off len fuel g = .ok order →
      ∀ p d, p ∈ g → d ∈ p.2 → order.indexOf d < order.indexOf p.1) := by
  refine ⟨rfl, rfl, rfl, rfl, rfl, ?_, ?_, ?_⟩
  · intro off len fuel g hne hc
    unfold toposort_loop
    rw [if_neg (by simpa [List.isEmpty_iff] using hne)]
    rw [if_pos (by simp [hc])]
  · exact fun off len fuel g h => toposort_loop_total off len fuel g h
  · exact fun off len fuel g order hnd h =>
      (toposort_loop_sound off len fuel g order hnd h).2

/-- C2: witness — the general parts applied at concrete graphs: the stuck
self-loop graph errors, the chain graph totalizes to an order, and in that
order the dependency of each chain template precedes it. -/
theorem C2_pane_template_toposort_witness :
    toposort_loop 0 0 1 [("A", ["A"])] = .error (layoutKdlError
      "Circular dependency detected between pane templates." 0 0) ∧
    ((∃ order, toposort_loop 0 0 3 [("A", ["B"]), ("B", ["C"]), ("C", [])] =
        .ok order) ∨
      toposort_loop 0 0 3 [("A", ["B"]), ("B", ["C"]), ("C", [])] =
        .error (layoutKdlError
          "Circular dependency detected between pane templates." 0 0)) ∧
    (["C", "B", "A"] : List String).indexOf "B" <
      (["C", "B", "A"] : List String).indexOf "A" :=
  ⟨C2_pane_template_toposort.2.2.2.2.2.1 0 0 0 [("A", ["A"])]
      (by simp) (by decide),
    C2_pane_template_toposort.2.2.2.2.2.2.1 0 0 3
      [("A", ["B"]), ("B", ["C"]), ("C", [])] (by decide),
    C2_pane_template_toposort.2.2.2.2.2.2.2 0 0 3
      [("A", ["B"]), ("B", ["C"]), ("C", [])] ["C", "B", "A"] (by decide) rfl
      ("A", ["B"]) "B" (by decide) (by decide)⟩

/-! ### Children-splice lemmas (for C1) -/

/-- Helper: a consumer with zero parsed nested panes leaves the template
untouched in `insert_children_to_pane_template`. -/
theorem insert_children_to_pane_template_empty (self : KdlLayoutParserState)
    (f : Nat) (node tplNode : KdlNode) (tmpl : TiledPaneLayout)
    (csd : SplitDirection) (ceci : Option Nat) (cstk : Bool)
    (hsd : parse_split_direction node = .ok csd)
    (hparts : (match node.childrenNodes with
      | some ch => parse_child_pane_nodes_for_pane self f ch
      | none => Except.ok (none, false, [])) = .ok (ceci, cstk, [])) :
    insert_children_to_pane_template self (f+1) node tmpl tplNode = .ok tmpl := by
  simp only [insert_children_to_pane_template, hsd, except_bind_ok, except_pure_eq]
  cases hch : node.childrenNodes with
  | some ch =>
    rw [hch] at hparts
    have hp2 : parse_child_pane_nodes_for_pane self f ch = .ok (ceci, cstk, []) :=
      hparts
    simp [hp2]
  | none =>
    simp [hch]

/-- Helper: a consumer with k ≥ 1 parsed nested panes splices the sibling
layout carrying them at the template's top-level marker index and clears
the marker, provided the template's only marker is the top-level one. -/
theorem insert_children_to_pane_template_nonempty (self : KdlLayoutParserState)
    (f : Nat) (node tplNode : KdlNode) (tmpl : TiledPaneLayout) (idx : Nat)
    (csd : SplitDirection) (ceci : Option Nat) (cstk : Bool)
    (parts : List TiledPaneLayout)
    (hidx : tmpl.external_children_index = some idx)
    (hcount : tmpl.children_block_count = 1)
    (hne : parts ≠ [])
    (hsd : parse_split_direction node = .ok csd)
    (hparts : (match node.childrenNodes with
      | some ch => parse_child_pane_nodes_for_pane self f ch
      | none => Except.ok (none, false, [])) = .ok (ceci, cstk, parts)) :
    insert_children_to_pane_template self (f+1) node tmpl tplNode =
      .ok ((tmpl.withEci none).withChildren (listInsertAt tmpl.children idx
        (TiledPaneLayout.mk false none none none none csd ceci parts cstk))) := by
  cases tmpl with
  | mk bT fT nT sT rT dT eT chT stT =>
  simp only [TiledPaneLayout.external_children_index] at hidx
  subst hidx
  have hlen : 0 < parts.length := List.length_pos.mpr hne
  have hone : TiledPaneLayout.children_block_count
      (TiledPaneLayout.mk bT fT nT sT rT dT (some idx) chT stT) = 1 := hcount
  simp only [insert_children_to_pane_template, hsd, except_bind_ok, except_pure_eq]
  cases hch : node.childrenNodes with
  | some ch =>
    rw [hch] at hparts
    have hp2 : parse_child_pane_nodes_for_pane self f ch = .ok (ceci, cstk, parts) :=
      hparts
    simp only [hch, hp2, except_bind_ok]
    rw [if_pos hlen]
    simp only [assert_one_children_block, hone, ne_eq, not_true_eq_false,
      if_false, except_bind_ok, insert_layout_children_or_error,
      TiledPaneLayout.insert_children_layout, Bool.not_true]
    rfl
  | none =>
    rw [hch] at hparts
    have hp2 : (Except.ok (none, false, ([] : List TiledPaneLayout)) :
        Except ConfigError (Option Nat × Bool × List TiledPaneLayout)) =
        .ok (ceci, cstk, parts) := hparts
    simp only [Except.ok.injEq, Prod.mk.injEq] at hp2
    exact absurd hp2.2.2.symm hne

/-- C1: counterexample.  The claim reads the k ≥ 1 case as a flat splice
of the k parsed panes at the marker index; the code instead inserts one
sibling `TiledPaneLayout` carrying the k panes (here k = 1: the template's
children become [wrapper-of-q, t0], not [q, t0]). -/
theorem C1_counterexample :
    (parse_pane_node_with_template emptyState 10 consumerK1
      (.Pane tplWithMarker) false tplNodeFix).map TiledPaneLayout.children =
      .ok [wrapQ, t0Pane] ∧
    (parse_child_pane_nodes_for_pane emptyState 9 [paneQNode]).map
      (fun t => t.2.2) = .ok [qPane] ∧
    ¬ ([wrapQ, t0Pane] = [qPane, t0Pane]) :=
  ⟨rfl, rfl, fun h => Option.noConfusion (show (none : Option String) = some "q" from
    congrArg (fun l => (l.headD TiledPaneLayout.default).name) h)⟩

/-- C1 (amended): applying a pane template whose resolved shape has its
single children marker at top-level index idx, to a consumer (in the
default non-marker-preserving mode): with k ≥ 1 parsed nested panes the
result's children are the template's children with ONE new sibling
`TiledPaneLayout` (carrying the k parsed panes, the consumer's split
direction, stacked flag and nested marker) inserted at idx; with zero
nested panes they are the template's children with one default empty pane
inserted at idx; and in both cases the resulting tree's
external_children_index is None. -/
theorem C1_children_splice (self : KdlLayoutParserState) (f : Nat)
    (node tplNode : KdlNode) (tmpl : TiledPaneLayout) (idx : Nat)
    (res : TiledPaneLayout) (ceci : Option Nat) (cstk : Bool)
    (parts : List TiledPaneLayout) (csd : SplitDirection)
    (hidx : tmpl.external_children_index = some idx)
    (hcount : tmpl.children_block_count = 1)
    (hsd : parse_split_direction node = .ok csd)
    (hparts : (match node.childrenNodes with
      | some ch => parse_child_pane_nodes_for_pane self f ch
      | none => Except.ok (none, false, [])) = .ok (ceci, cstk, parts))
    (hres : parse_pane_node_with_template self (f+2) node (.Pane tmpl) false
      tplNode = .ok res) :
    res.external_children_index = none ∧
    (parts = [] →
      res.children = listInsertAt tmpl.children idx TiledPaneLayout.default) ∧
    (parts ≠ [] →
      res.children = listInsertAt tmpl.children idx
        (TiledPaneLayout.mk false none none none none csd ceci parts cstk)) := by
  simp only [parse_pane_node_with_template] at hres
  obtain ⟨ob, hob, hres⟩ := except_bind_ok_inv hres
  obtain ⟨ofo, hofo, hres⟩ := except_bind_ok_inv hres
  obtain ⟨onm, honm, hres⟩ := except_bind_ok_inv hres
  obtain ⟨oargs, hoargs, hres⟩ := except_bind_ok_inv hres
  obtain ⟨oco, hoco, hres⟩ := except_bind_ok_inv hres
  obtain ⟨oss, hoss, hres⟩ := except_bind_ok_inv hres
  obtain ⟨osz, hosz, hres⟩ := except_bind_ok_inv hres
  obtain ⟨orun, horun, hres⟩ := except_bind_ok_inv hres
  simp only [Bool.false_eq_true, if_false, except_pure_eq, except_bind_ok] at hres
  obtain ⟨u, hu, hres⟩ := except_bind_ok_inv hres
  by_cases hp : parts = []
  · subst hp
    rw [insert_children_to_pane_template_empty self f node tplNode tmpl csd ceci
      cstk hsd hparts] at hres
    simp only [except_bind_ok, except_pure_eq, Except.ok.injEq] at hres
    subst hres
    cases tmpl with
    | mk bT fT nT sT rT dT eT chT stT =>
    simp only [TiledPaneLayout.external_children_index] at hidx
    subst hidx
    refine ⟨?_, ?_, ?_⟩
    · rcases ob with _ | bv <;> rcases ofo with _ | fv <;>
        rcases onm with _ | nv <;> rcases osz with _ | sv <;>
        cases hm : Run.merge rT orun <;>
        simp [TiledPaneLayout.withRun, TiledPaneLayout.withBorderless,
          TiledPaneLayout.withFocus, TiledPaneLayout.withName,
          TiledPaneLayout.withSplitSize, TiledPaneLayout.withEci,
          TiledPaneLayout.withChildren, TiledPaneLayout.withStacked,
          TiledPaneLayout.run, TiledPaneLayout.children,
          TiledPaneLayout.external_children_index, hm]
    · intro _
      rcases ob with _ | bv <;> rcases ofo with _ | fv <;>
        rcases onm with _ | nv <;> rcases osz with _ | sv <;>
        cases hm : Run.merge rT orun <;>
        simp [TiledPaneLayout.withRun, TiledPaneLayout.withBorderless,
          TiledPaneLayout.withFocus, TiledPaneLayout.withName,
          TiledPaneLayout.withSplitSize, TiledPaneLayout.withEci,
          TiledPaneLayout.withChildren, TiledPaneLayout.withStacked,
          TiledPaneLayout.run, TiledPaneLayout.children,
          TiledPaneLayout.external_children_index, hm]
    · intro hne
      exact absurd rfl hne
  · rw [insert_children_to_pane_template_nonempty self f node tplNode tmpl idx
      csd ceci cstk parts hidx hcount hp hsd hparts] at hres
    simp only [except_bind_ok, except_pure_eq, Except.ok.injEq] at hres
    subst hres
    cases tmpl with
    | mk bT fT nT sT rT dT eT chT stT =>
    simp only [TiledPaneLayout.external_children_index] at hidx
    subst hidx
    refine ⟨?_, ?_, ?_⟩
    · rcases ob with _ | bv <;> rcases ofo with _ | fv <;>
        rcases onm with _ | nv <;> rcases osz with _ | sv <;>
        cases hm : Run.merge rT orun <;>
        simp [TiledPaneLayout.withRun, TiledPaneLayout.withBorderless,
          TiledPaneLayout.withFocus, TiledPaneLayout.withName,
          TiledPaneLayout.withSplitSize, TiledPaneLayout.withEci,
          TiledPaneLayout.withChildren, TiledPaneLayout.withStacked,
          TiledPaneLayout.run, TiledPaneLayout.children,
          TiledPaneLayout.external_children_index, hm]
    · intro hnil
      exact absurd hnil hp
    · intro _
      rcases ob with _ | bv <;> rcases ofo with _ | fv <;>
        rcases onm with _ | nv <;> rcases osz with _ | sv <;>
        cases hm : Run.merge rT orun <;>
        simp [TiledPaneLayout.withRun, TiledPaneLayout.withBorderless,
          TiledPaneLayout.withFocus, TiledPaneLayout.withName,
          TiledPaneLayout.withSplitSize, TiledPaneLayout.withEci,
          TiledPaneLayout.withChildren, TiledPaneLayout.withStacked,
          TiledPaneLayout.run, TiledPaneLayout.children,
          TiledPaneLayout.external_children_index, hm]

/-- C1: witness — the amended splice applied at the concrete k = 1 and
k = 0 consumers of the one-marker template. -/
theorem C1_children_splice_witness :
    (TiledPaneLayout.mk false none none none none .horizontal none
        [wrapQ, t0Pane] false).external_children_index = none ∧
    (TiledPaneLayout.mk false none none none none .horizontal none
        [wrapQ, t0Pane] false).children =
      listInsertAt tplWithMarker.children 0
        (TiledPaneLayout.mk false none none none none .horizontal none
          [qPane] false) ∧
    (TiledPaneLayout.mk false none none none none .horizontal none
        [TiledPaneLayout.default, t0Pane] false).children =
      listInsertAt tplWithMarker.children 0 TiledPaneLayout.default :=
  ⟨(C1_children_splice emptyState 8 consumerK1 tplNodeFix tplWithMarker 0
      (TiledPaneLayout.mk false none none none none .horizontal none
        [wrapQ, t0Pane] false) none false [qPane] .horizontal
      rfl rfl rfl rfl rfl).1,
    (C1_children_splice emptyState 8 consumerK1 tplNodeFix tplWithMarker 0
      (TiledPaneLayout.mk false none none none none .horizontal none
        [wrapQ, t0Pane] false) none false [qPane] .horizontal
      rfl rfl rfl rfl rfl).2.2 (by simp),
    (C1_children_splice emptyState 8 consumerK0 tplNodeFix tplWithMarker 0
      (TiledPaneLayout.mk false none none none none .horizontal none
        [TiledPaneLayout.default, t0Pane] false) none false [] .horizontal
      rfl rfl rfl rfl rfl).2.1 rfl⟩

/-- C4: counterexample.  Parsing a document whose layout declares one bare
pane and no tab nodes yields a Layout with an EMPTY tabs sequence (the
panes are carried in the template slot) when no default tab template is
registered — not a Layout containing a single synthetic tab. -/
theorem C4_counterexample :
    (parse emptyState 20 docOnePane).map (fun l => l.tabs.length) = .ok 0 ∧
    ¬ ((parse emptyState 20 docOnePane).map (fun l => l.tabs.length) = .ok 1) :=
  ⟨rfl, fun h => by
    have h2 : (Except.ok 0 : Except ConfigError Nat) = .ok 1 := h
    simp at h2⟩

/-- C4 (amended): with no tabs and k ≥ 1 bare panes the final dispatch of
parse always takes the one-tab branch; there, when a default tab template
is registered the Layout has exactly one synthetic unnamed tab containing
exactly those panes, and when none is registered the tabs sequence is
empty and the template slot carries the tab layout containing exactly
those panes (used as the single ad-hoc tab); concretely, the one-pane
document yields one synthetic tab containing that pane when a default tab
template exists. -/
theorem C4_single_synthetic_tab (self : KdlLayoutParserState) :
    (∀ cp cf st sf doc, cp ≠ [] →
      parse_final self [] cp cf st sf doc = layout_with_one_tab self cp cf st sf) ∧
    (∀ panes floats st sf L, layout_with_one_tab self panes floats st sf = .ok L →
      (self.default_tab_template = none →
        L.tabs = [] ∧
        L.template = some (TiledPaneLayout.mk false none none none none
          SplitDirection.default none panes false, floats)) ∧
      (∀ dt, self.default_tab_template = some dt →
        L.tabs = [(none, TiledPaneLayout.mk false none none none none
          SplitDirection.default none panes false, floats)])) ∧
    (parse emptyState 20 docPaneWithDTT).map
      (fun l => l.tabs.map (fun t => (t.1, TiledPaneLayout.children t.2.1))) =
      .ok [(none, [TiledPaneLayout.default])] := by
  refine ⟨?_, ?_, rfl⟩
  · intro cp cf st sf doc hcp
    simp [parse_final, hcp]
  · intro panes floats st sf L h
    simp only [layout_with_one_tab, default_template] at h
    constructor
    · intro hdt
      rw [hdt] at h
      simp only [except_pure_eq, except_bind_ok, Option.isNone_none, if_true,
        Option.getD, Except.ok.injEq] at h
      subst h
      exact ⟨rfl, rfl⟩
    · intro dt hdt
      rw [hdt] at h
      simp only [except_pure_eq, except_bind_ok, Option.isNone_some,
        Bool.false_eq_true, if_false, Except.ok.injEq] at h
      subst h
      rfl

/-- C4: witness — the amended dispatch and shapes applied at concrete
inputs (the no-template state and a state with a registered default tab
template). -/
theorem C4_single_synthetic_tab_witness :
    parse_final emptyState [] [TiledPaneLayout.default] [] [] [] docOnePane =
      layout_with_one_tab emptyState [TiledPaneLayout.default] [] [] [] ∧
    (∀ L, layout_with_one_tab emptyState [TiledPaneLayout.default] [] [] [] =
      .ok L → L.tabs = [] ∧
      L.template = some (TiledPaneLayout.mk false none none none none
        SplitDirection.default none [TiledPaneLayout.default] false, [])) :=
  ⟨(C4_single_synthetic_tab emptyState).1 [TiledPaneLayout.default] [] [] []
      docOnePane (by simp),
    fun L h => ((C4_single_synthetic_tab emptyState).2.1 [TiledPaneLayout.default]
      [] [] [] L h).1 rfl⟩

end ZellijKdl
